/-
Verification of the NES emulator core (CPU instruction engine, bus, PPU
timing) against its natural-language specification.

The Rust sources are embedded shallowly:

* machine integers become `Nat` with an explicit `% 2^w` at every point
  where the Rust type forces wrap-around (u8 arithmetic, u16 addresses,
  byte-array cells);
* byte stores (`[u8; N]` arrays) become functions `Nat → Nat` whose reads
  are reduced `% 256`, mirroring the cell type;
* code paths that `panic!` in Rust are modelled with `Except Fault`; each
  `Fault` constructor corresponds to one panic site in the source;
* `&mut self` methods become state-passing functions.

The CPU (src/src/cpu.rs) implements memory through the `Mem` trait with
read-only `&self` receivers, so CPU memory is modelled as a pure byte map
`mem : Nat → Nat` inside the `CPU` structure.  The bus (src/src/bus.rs)
has mutating reads (PPU register reads change PPU state), so `Bus` reads
return the new bus as well.
-/
import Mathlib

set_option maxRecDepth 10000
set_option maxHeartbeats 1600000

/-! ## Wrapping helpers (Rust `wrapping_*` on u8/u16) -/

/-- Rust `u8::wrapping_add`. -/
def wrappingAdd8 (a b : Nat) : Nat := (a + b) % 256

/-- Rust `u8::wrapping_sub`. -/
def wrappingSub8 (a b : Nat) : Nat := (a % 256 + 256 - b % 256) % 256

/-- Rust `u8::wrapping_neg` (two's complement negation on 8 bits). -/
def wrappingNeg8 (a : Nat) : Nat := (256 - a % 256) % 256

/-- Rust `u16::wrapping_add`. -/
def wrappingAdd16 (a b : Nat) : Nat := (a + b) % 65536

/-- Rust `u16::wrapping_sub`. -/
def wrappingSub16 (a b : Nat) : Nat := (a % 65536 + 65536 - b % 65536) % 65536

/-! ## Fatal conditions

Each constructor models one `panic!`/`expect` site of the Rust source. -/

inductive Fault where
  /-- `CPU::run_with_callback`: `opcodes.get(&code).expect(...)`, and
  `CPU::crash`: `panic!("unexpected opecode was executed ...")`. -/
  | unknownOpcode (code : Nat)
  /-- `CPU::get_absolute_address`, `NoneAddressing` arm:
  `panic!("mode ... is not supported")`. -/
  | invalidAddressingModeUse
  /-- `Bus::mem_write`, `0x8000..=0xFFFF` arm:
  `panic!("Attempt to write to chr rom space ...")`. -/
  | romWriteAttempt (addr : Nat)
  /-- `NesPPU::read_data` / `write_to_data`: panic/unimplemented arms for
  the address ranges the PPU does not expect. -/
  | ppuUnexpectedAddr (addr : Nat)
  /-- Rust out-of-bounds indexing panic on a PPU-side byte array. -/
  | ppuIndexOutOfRange (addr : Nat)
  /-- Rust out-of-bounds indexing panic in `Bus::read_prg_rom`. -/
  | prgRomIndexOutOfRange (addr : Nat)
  deriving Repr, DecidableEq

/-! ## Addressing modes (src/src/cpu.rs, `enum AddressingMode`) -/

inductive AddressingMode where
  | Immediate
  | ZeroPage
  | ZeroPage_X
  | ZeroPage_Y
  | Absolute
  | Absolute_X
  | Absolute_Y
  | Indirect_X
  | Indirect_Y
  | Indirect_jmp
  | NoneAddressing
  deriving Repr, DecidableEq

/-! ## Opcode table (src/src/opcodes.rs)

The `mnemonic` column of the Rust `OpCode` struct is display-only metadata
(never consulted by the engine), so it is omitted here. -/

structure OpCode where
  code : Nat
  len : Nat
  cycles : Nat
  mode : AddressingMode
  deriving Repr, DecidableEq

/-- The `CPU_OPS_CODES` vector, in source order (split into slices of 32
entries because very long list literals elaborate slowly; the
concatenation below restores the exact source order). -/
def CPU_OPS_CODES_0 : List OpCode := [
  ⟨0x69, 2, 2, .Immediate⟩,
  ⟨0x65, 2, 3, .ZeroPage⟩,
  ⟨0x75, 2, 4, .ZeroPage_X⟩,
  ⟨0x6D, 3, 4, .Absolute⟩,
  ⟨0x7D, 3, 4, .Absolute_X⟩,
  ⟨0x79, 3, 4, .Absolute_Y⟩,
  ⟨0x61, 2, 6, .Indirect_X⟩,
  ⟨0x71, 2, 5, .Indirect_Y⟩,
  ⟨0x29, 2, 2, .Immediate⟩,
  ⟨0x25, 2, 3, .ZeroPage⟩,
  ⟨0x35, 2, 4, .ZeroPage_X⟩,
  ⟨0x2D, 3, 4, .Absolute⟩,
  ⟨0x3D, 3, 4, .Absolute_X⟩,
  ⟨0x39, 3, 4, .Absolute_Y⟩,
  ⟨0x21, 2, 6, .Indirect_X⟩,
  ⟨0x31, 2, 5, .Indirect_Y⟩,
  ⟨0x0A, 1, 2, .NoneAddressing⟩,
  ⟨0x06, 2, 5, .ZeroPage⟩,
  ⟨0x16, 2, 6, .ZeroPage_X⟩,
  ⟨0x0E, 3, 6, .Absolute⟩,
  ⟨0x1E, 3, 7, .Absolute_X⟩,
  ⟨0x90, 2, 2, .NoneAddressing⟩,
  ⟨0xB0, 2, 2, .NoneAddressing⟩,
  ⟨0xF0, 2, 2, .NoneAddressing⟩,
  ⟨0x24, 2, 3, .ZeroPage⟩,
  ⟨0x2C, 3, 4, .Absolute⟩,
  ⟨0x30, 2, 2, .NoneAddressing⟩,
  ⟨0xD0, 2, 2, .NoneAddressing⟩,
  ⟨0x10, 2, 2, .NoneAddressing⟩,
  ⟨0x00, 1, 7, .NoneAddressing⟩,
  ⟨0x50, 2, 2, .NoneAddressing⟩,
  ⟨0x70, 2, 2, .NoneAddressing⟩]

def CPU_OPS_CODES_1 : List OpCode := [
  ⟨0x18, 1, 2, .NoneAddressing⟩,
  ⟨0xD8, 1, 2, .NoneAddressing⟩,
  ⟨0x58, 1, 2, .NoneAddressing⟩,
  ⟨0xB8, 1, 2, .NoneAddressing⟩,
  ⟨0xC9, 2, 2, .Immediate⟩,
  ⟨0xC5, 2, 3, .ZeroPage⟩,
  ⟨0xD5, 2, 4, .ZeroPage_X⟩,
  ⟨0xCD, 3, 4, .Absolute⟩,
  ⟨0xDD, 3, 4, .Absolute_X⟩,
  ⟨0xD9, 3, 4, .Absolute_Y⟩,
  ⟨0xC1, 2, 6, .Indirect_X⟩,
  ⟨0xD1, 2, 5, .Indirect_Y⟩,
  ⟨0xE0, 2, 2, .Immediate⟩,
  ⟨0xE4, 2, 3, .ZeroPage⟩,
  ⟨0xEC, 3, 4, .Absolute⟩,
  ⟨0xC0, 2, 2, .Immediate⟩,
  ⟨0xC4, 2, 3, .ZeroPage⟩,
  ⟨0xCC, 3, 4, .Absolute⟩,
  ⟨0xC6, 2, 5, .ZeroPage⟩,
  ⟨0xD6, 2, 6, .ZeroPage_X⟩,
  ⟨0xCE, 3, 6, .Absolute⟩,
  ⟨0xDE, 3, 7, .Absolute_X⟩,
  ⟨0xCA, 1, 2, .NoneAddressing⟩,
  ⟨0x88, 1, 2, .NoneAddressing⟩,
  ⟨0x49, 2, 2, .Immediate⟩,
  ⟨0x45, 2, 3, .ZeroPage⟩,
  ⟨0x55, 2, 4, .ZeroPage_X⟩,
  ⟨0x4D, 3, 4, .Absolute⟩,
  ⟨0x5D, 3, 4, .Absolute_X⟩,
  ⟨0x59, 3, 4, .Absolute_Y⟩,
  ⟨0x41, 2, 6, .Indirect_X⟩,
  ⟨0x51, 2, 5, .Indirect_Y⟩]

def CPU_OPS_CODES_2 : List OpCode := [
  ⟨0xE6, 2, 5, .ZeroPage⟩,
  ⟨0xF6, 2, 6, .ZeroPage_X⟩,
  ⟨0xEE, 3, 6, .Absolute⟩,
  ⟨0xFE, 3, 7, .Absolute_X⟩,
  ⟨0xE8, 1, 2, .NoneAddressing⟩,
  ⟨0xC8, 1, 2, .NoneAddressing⟩,
  ⟨0x4C, 3, 3, .Absolute⟩,
  ⟨0x6C, 3, 5, .Indirect_jmp⟩,
  ⟨0x20, 3, 6, .Absolute⟩,
  ⟨0xA9, 2, 2, .Immediate⟩,
  ⟨0xA5, 2, 3, .ZeroPage⟩,
  ⟨0xB5, 2, 4, .ZeroPage_X⟩,
  ⟨0xAD, 3, 4, .Absolute⟩,
  ⟨0xBD, 3, 4, .Absolute_X⟩,
  ⟨0xB9, 3, 4, .Absolute_Y⟩,
  ⟨0xA1, 2, 6, .Indirect_X⟩,
  ⟨0xB1, 2, 5, .Indirect_Y⟩,
  ⟨0xA2, 2, 2, .Immediate⟩,
  ⟨0xA6, 2, 3, .ZeroPage⟩,
  ⟨0xB6, 2, 4, .ZeroPage_Y⟩,
  ⟨0xAE, 3, 4, .Absolute⟩,
  ⟨0xBE, 3, 4, .Absolute_Y⟩,
  ⟨0xA0, 2, 2, .Immediate⟩,
  ⟨0xA4, 2, 3, .ZeroPage⟩,
  ⟨0xB4, 2, 4, .ZeroPage_X⟩,
  ⟨0xAC, 3, 4, .Absolute⟩,
  ⟨0xBC, 3, 4, .Absolute_X⟩,
  ⟨0x4A, 1, 2, .NoneAddressing⟩,
  ⟨0x46, 2, 5, .ZeroPage⟩,
  ⟨0x56, 2, 6, .ZeroPage_X⟩,
  ⟨0x4E, 3, 6, .Absolute⟩,
  ⟨0x5E, 3, 7, .Absolute_X⟩]

def CPU_OPS_CODES_3 : List OpCode := [
  ⟨0xEA, 1, 2, .NoneAddressing⟩,
  ⟨0x09, 2, 2, .Immediate⟩,
  ⟨0x05, 2, 3, .ZeroPage⟩,
  ⟨0x15, 2, 4, .ZeroPage_X⟩,
  ⟨0x0D, 3, 4, .Absolute⟩,
  ⟨0x1D, 3, 4, .Absolute_X⟩,
  ⟨0x19, 3, 4, .Absolute_Y⟩,
  ⟨0x01, 2, 6, .Indirect_X⟩,
  ⟨0x11, 2, 5, .Indirect_Y⟩,
  ⟨0x48, 1, 3, .NoneAddressing⟩,
  ⟨0x08, 1, 3, .NoneAddressing⟩,
  ⟨0x68, 1, 4, .NoneAddressing⟩,
  ⟨0x28, 1, 4, .NoneAddressing⟩,
  ⟨0x2A, 1, 2, .NoneAddressing⟩,
  ⟨0x26, 2, 5, .ZeroPage⟩,
  ⟨0x36, 2, 6, .ZeroPage_X⟩,
  ⟨0x2E, 3, 6, .Absolute⟩,
  ⟨0x3E, 3, 7, .Absolute_X⟩,
  ⟨0x6A, 1, 2, .NoneAddressing⟩,
  ⟨0x66, 2, 5, .ZeroPage⟩,
  ⟨0x76, 2, 6, .ZeroPage_X⟩,
  ⟨0x6E, 3, 6, .Absolute⟩,
  ⟨0x7E, 3, 7, .Absolute_X⟩,
  ⟨0x40, 1, 6, .NoneAddressing⟩,
  ⟨0x60, 1, 6, .NoneAddressing⟩,
  ⟨0xE9, 2, 2, .Immediate⟩,
  ⟨0xE5, 2, 3, .ZeroPage⟩,
  ⟨0xF5, 2, 4, .ZeroPage_X⟩,
  ⟨0xED, 3, 4, .Absolute⟩,
  ⟨0xFD, 3, 4, .Absolute_X⟩,
  ⟨0xF9, 3, 4, .Absolute_Y⟩,
  ⟨0xE1, 2, 6, .Indirect_X⟩]

def CPU_OPS_CODES_4 : List OpCode := [
  ⟨0xF1, 2, 5, .Indirect_Y⟩,
  ⟨0x38, 1, 2, .NoneAddressing⟩,
  ⟨0xF8, 1, 2, .NoneAddressing⟩,
  ⟨0x78, 1, 2, .NoneAddressing⟩,
  ⟨0x85, 2, 3, .ZeroPage⟩,
  ⟨0x95, 2, 4, .ZeroPage_X⟩,
  ⟨0x8D, 3, 4, .Absolute⟩,
  ⟨0x9D, 3, 5, .Absolute_X⟩,
  ⟨0x99, 3, 5, .Absolute_Y⟩,
  ⟨0x81, 2, 6, .Indirect_X⟩,
  ⟨0x91, 2, 6, .Indirect_Y⟩,
  ⟨0x86, 2, 3, .ZeroPage⟩,
  ⟨0x96, 2, 4, .ZeroPage_Y⟩,
  ⟨0x8E, 3, 4, .Absolute⟩,
  ⟨0x84, 2, 3, .ZeroPage⟩,
  ⟨0x94, 2, 4, .ZeroPage_X⟩,
  ⟨0x8C, 3, 4, .Absolute⟩,
  ⟨0xAA, 1, 2, .NoneAddressing⟩,
  ⟨0xA8, 1, 2, .NoneAddressing⟩,
  ⟨0xBA, 1, 2, .NoneAddressing⟩,
  ⟨0x8A, 1, 2, .NoneAddressing⟩,
  ⟨0x9A, 1, 2, .NoneAddressing⟩,
  ⟨0x98, 1, 2, .NoneAddressing⟩,
  ⟨0x0B, 2, 2, .Immediate⟩,
  ⟨0x2B, 2, 2, .Immediate⟩,
  ⟨0x87, 2, 3, .ZeroPage⟩,
  ⟨0x97, 2, 4, .ZeroPage_Y⟩,
  ⟨0x83, 2, 6, .Indirect_Y⟩,
  ⟨0x8F, 3, 4, .Absolute⟩,
  ⟨0x6B, 2, 2, .Immediate⟩,
  ⟨0x4B, 2, 2, .Immediate⟩,
  ⟨0xAB, 2, 3, .Immediate⟩]

def CPU_OPS_CODES_5 : List OpCode := [
  ⟨0x9F, 3, 5, .Absolute_Y⟩,
  ⟨0x93, 2, 6, .Indirect_Y⟩,
  ⟨0xCB, 2, 2, .Immediate⟩,
  ⟨0xC7, 2, 5, .ZeroPage⟩,
  ⟨0xD7, 2, 6, .ZeroPage_X⟩,
  ⟨0xCF, 3, 6, .Absolute⟩,
  ⟨0xDF, 3, 7, .Absolute_X⟩,
  ⟨0xDB, 3, 7, .Absolute_Y⟩,
  ⟨0xC3, 2, 8, .Indirect_X⟩,
  ⟨0xD3, 2, 8, .Indirect_Y⟩,
  ⟨0x04, 2, 3, .ZeroPage⟩,
  ⟨0x14, 2, 4, .ZeroPage_X⟩,
  ⟨0x34, 2, 4, .ZeroPage_X⟩,
  ⟨0x44, 2, 3, .ZeroPage⟩,
  ⟨0x54, 2, 4, .ZeroPage_X⟩,
  ⟨0x64, 2, 3, .ZeroPage⟩,
  ⟨0x74, 2, 3, .ZeroPage_X⟩,
  ⟨0x80, 2, 3, .Immediate⟩,
  ⟨0x82, 2, 2, .Immediate⟩,
  ⟨0x89, 2, 2, .Immediate⟩,
  ⟨0xC2, 2, 2, .Immediate⟩,
  ⟨0xD4, 2, 4, .ZeroPage_X⟩,
  ⟨0xE2, 2, 2, .Immediate⟩,
  ⟨0xF4, 2, 4, .ZeroPage_X⟩,
  ⟨0xE7, 2, 5, .ZeroPage⟩,
  ⟨0xF7, 2, 6, .ZeroPage_X⟩,
  ⟨0xEF, 3, 6, .Absolute⟩,
  ⟨0xFF, 3, 7, .Absolute_X⟩,
  ⟨0xFB, 3, 7, .Absolute_Y⟩,
  ⟨0xE3, 2, 8, .Indirect_X⟩,
  ⟨0xF3, 2, 8, .Indirect_Y⟩,
  ⟨0x02, 1, 2, .NoneAddressing⟩]

def CPU_OPS_CODES_6 : List OpCode := [
  ⟨0x12, 1, 2, .NoneAddressing⟩,
  ⟨0x22, 1, 2, .NoneAddressing⟩,
  ⟨0x32, 1, 2, .NoneAddressing⟩,
  ⟨0x42, 1, 2, .NoneAddressing⟩,
  ⟨0x52, 1, 2, .NoneAddressing⟩,
  ⟨0x62, 1, 2, .NoneAddressing⟩,
  ⟨0x72, 1, 2, .NoneAddressing⟩,
  ⟨0x92, 1, 2, .NoneAddressing⟩,
  ⟨0xB2, 1, 2, .NoneAddressing⟩,
  ⟨0xD2, 1, 2, .NoneAddressing⟩,
  ⟨0xF2, 1, 2, .NoneAddressing⟩,
  ⟨0xBB, 3, 4, .Absolute_Y⟩,
  ⟨0xA7, 2, 3, .ZeroPage⟩,
  ⟨0xB7, 2, 4, .ZeroPage_Y⟩,
  ⟨0xAF, 3, 4, .Absolute⟩,
  ⟨0xBF, 3, 4, .Absolute_Y⟩,
  ⟨0xA3, 2, 6, .Indirect_X⟩,
  ⟨0xB3, 2, 5, .Indirect_Y⟩,
  ⟨0x1A, 1, 2, .NoneAddressing⟩,
  ⟨0x3A, 1, 2, .NoneAddressing⟩,
  ⟨0x5A, 1, 2, .NoneAddressing⟩,
  ⟨0x7A, 1, 2, .NoneAddressing⟩,
  ⟨0xDA, 1, 2, .NoneAddressing⟩,
  ⟨0xFA, 1, 2, .NoneAddressing⟩,
  ⟨0x27, 2, 5, .ZeroPage⟩,
  ⟨0x37, 2, 6, .ZeroPage_X⟩,
  ⟨0x2F, 3, 6, .Absolute⟩,
  ⟨0x3F, 3, 7, .Absolute_X⟩,
  ⟨0x3B, 3, 7, .Absolute_Y⟩,
  ⟨0x23, 2, 8, .Indirect_X⟩,
  ⟨0x33, 2, 8, .Indirect_Y⟩,
  ⟨0x67, 2, 5, .ZeroPage⟩]

def CPU_OPS_CODES_7 : List OpCode := [
  ⟨0x77, 2, 6, .ZeroPage_X⟩,
  ⟨0x6F, 3, 6, .Absolute⟩,
  ⟨0x7F, 3, 7, .Absolute_X⟩,
  ⟨0x7B, 3, 7, .Absolute_Y⟩,
  ⟨0x63, 2, 8, .Indirect_X⟩,
  ⟨0x73, 2, 8, .Indirect_Y⟩,
  ⟨0xEB, 2, 2, .Immediate⟩,
  ⟨0x07, 2, 5, .ZeroPage⟩,
  ⟨0x17, 2, 6, .ZeroPage_X⟩,
  ⟨0x0F, 3, 6, .Absolute⟩,
  ⟨0x1F, 3, 7, .Absolute_X⟩,
  ⟨0x1B, 3, 7, .Absolute_Y⟩,
  ⟨0x03, 2, 8, .Indirect_X⟩,
  ⟨0x13, 2, 8, .Indirect_Y⟩,
  ⟨0x47, 2, 5, .ZeroPage⟩,
  ⟨0x57, 2, 6, .ZeroPage_X⟩,
  ⟨0x4F, 3, 6, .Absolute⟩,
  ⟨0x5F, 3, 7, .Absolute_X⟩,
  ⟨0x5B, 3, 7, .Absolute_Y⟩,
  ⟨0x43, 2, 8, .Indirect_X⟩,
  ⟨0x53, 2, 8, .Indirect_Y⟩,
  ⟨0x9E, 3, 4, .Absolute_Y⟩,
  ⟨0x9C, 3, 4, .Absolute_X⟩,
  ⟨0x0C, 3, 4, .Absolute⟩,
  ⟨0x1C, 3, 4, .Absolute_X⟩,
  ⟨0x3C, 3, 4, .Absolute_X⟩,
  ⟨0x5C, 3, 4, .Absolute_X⟩,
  ⟨0x7C, 3, 4, .Absolute_X⟩,
  ⟨0xDC, 3, 4, .Absolute_X⟩,
  ⟨0xFC, 3, 4, .Absolute_X⟩,
  ⟨0x8B, 2, 3, .Immediate⟩,
  ⟨0x9B, 3, 2, .Absolute_Y⟩]

/-- The full `CPU_OPS_CODES` vector of src/src/opcodes.rs. -/
def CPU_OPS_CODES : List OpCode :=
  CPU_OPS_CODES_0 ++ CPU_OPS_CODES_1 ++ CPU_OPS_CODES_2 ++ CPU_OPS_CODES_3 ++ CPU_OPS_CODES_4 ++ CPU_OPS_CODES_5 ++ CPU_OPS_CODES_6 ++ CPU_OPS_CODES_7

/-- The `OPCODES_MAP` hash map.  `CPU_OPS_CODES` has no duplicate `code`
(all 256 byte values appear exactly once), so first-match lookup agrees
with the Rust `HashMap` built by insertion. -/
def OPCODES_MAP (code : Nat) : Option OpCode :=
  CPU_OPS_CODES.find? (fun op => op.code == code)

/-! ## CPU (src/src/cpu.rs) -/

-- stack
def STACK : Nat := 0x0100
def STACK_RESET : Nat := 0xFD

def CLEAR_STATUS : Nat := 0x00
-- Processor Status
def CARRY_FLAG : Nat := 0x01
def ZERO_FLAG : Nat := 0x02
def INTERRUPT_DISABLE : Nat := 0x04
def DECIMAL_MODE_FLAG : Nat := 0x08
def BREAK_COMMAND : Nat := 0x10
def BREAK2_COMMAND : Nat := 0x20
def OVERFLOW_FLAG : Nat := 0x40
def NEGATIVE_FLAG : Nat := 0x80

/-- CPU register file.  `cpu.rs` implements the `Mem` trait with `&self`
receivers (reads are effect-free), so its memory is a pure byte map. -/
structure CPU where
  register_a : Nat
  register_x : Nat
  register_y : Nat
  status : Nat
  program_counter : Nat
  stack_pointer : Nat
  mem : Nat → Nat

/-- `Mem::mem_read`: the address is a u16 and the cells are u8. -/
def CPU.mem_read (c : CPU) (addr : Nat) : Nat :=
  c.mem (addr % 65536) % 256

/-- `Mem::mem_write`. -/
def CPU.mem_write (c : CPU) (addr data : Nat) : CPU :=
  { c with mem := fun a => if a = addr % 65536 then data % 256 else c.mem a }

/-- `Mem::mem_read_u16`: little-endian pair read. -/
def CPU.mem_read_u16 (c : CPU) (pos : Nat) : Nat :=
  let lo := c.mem_read pos
  let hi := c.mem_read (pos + 1)
  hi <<< 8 ||| lo

/-- `Mem::mem_write_u16`. -/
def CPU.mem_write_u16 (c : CPU) (pos data : Nat) : CPU :=
  let hi := (data >>> 8) % 256
  let lo := data &&& 0xFF
  let c := c.mem_write pos lo
  c.mem_write (pos + 1) hi

/-- `CPU::get_absolute_address`.  The `NoneAddressing` arm panics in Rust;
the panic is modelled as `Except.error`. -/
def CPU.get_absolute_address (c : CPU) (mode : AddressingMode) (addr : Nat) :
    Except Fault Nat :=
  match mode with
  | .Immediate => .ok c.program_counter
  | .ZeroPage => .ok (c.mem_read addr)
  | .Absolute => .ok (c.mem_read_u16 addr)
  | .ZeroPage_X =>
      let pos := c.mem_read addr
      .ok (wrappingAdd8 pos c.register_x)
  | .ZeroPage_Y =>
      let pos := c.mem_read addr
      .ok (wrappingAdd8 pos c.register_y)
  | .Absolute_X =>
      let base := c.mem_read_u16 addr
      .ok (wrappingAdd16 base c.register_x)
  | .Absolute_Y =>
      let base := c.mem_read_u16 addr
      .ok (wrappingAdd16 base c.register_y)
  | .Indirect_X =>
      let base := c.mem_read addr
      let ptr := wrappingAdd8 base c.register_x
      let lo := c.mem_read ptr
      let hi := c.mem_read (wrappingAdd8 ptr 1)
      .ok (hi <<< 8 ||| lo)
  | .Indirect_Y =>
      let base := c.mem_read addr
      let lo := c.mem_read base
      let hi := c.mem_read (wrappingAdd8 base 1)
      let deref_base := hi <<< 8 ||| lo
      .ok (wrappingAdd16 deref_base c.register_y)
  | .Indirect_jmp =>
      -- reads the pointer at the program counter, then dereferences it,
      -- reproducing the 6502 page-wrap defect when the low byte is 0xFF
      let addr := c.mem_read_u16 c.program_counter
      if addr &&& 0x00FF = 0x00FF then
        let lo := c.mem_read addr
        let hi := c.mem_read (addr &&& 0xFF00)
        .ok (hi <<< 8 ||| lo)
      else
        .ok (c.mem_read_u16 addr)
  | .NoneAddressing => .error .invalidAddressingModeUse

/-- `CPU::get_operand_address`. -/
def CPU.get_operand_address (c : CPU) (mode : AddressingMode) : Except Fault Nat :=
  match mode with
  | .Immediate => .ok c.program_counter
  | _ => c.get_absolute_address mode c.program_counter

/-- `CPU::update_zero_and_negative_flags`. -/
def CPU.update_zero_and_negative_flags (c : CPU) (result : Nat) : CPU :=
  let c :=
    if result = 0 then { c with status := c.status ||| ZERO_FLAG }
    else { c with status := c.status &&& 0xFD }   -- !ZERO_FLAG
  if result &&& 0x80 ≠ 0 then { c with status := c.status ||| NEGATIVE_FLAG }
  else { c with status := c.status &&& 0x7F }     -- !NEGATIVE_FLAG

/-- `CPU::update_negative_flags` (memory ROL/ROR use this one; it leaves
the Zero flag alone). -/
def CPU.update_negative_flags (c : CPU) (result : Nat) : CPU :=
  if result >>> 7 = 1 then { c with status := c.status ||| NEGATIVE_FLAG }
  else { c with status := c.status &&& 0x7F }     -- !NEGATIVE_FLAG

/-- `CPU::set_register_a`. -/
def CPU.set_register_a (c : CPU) (value : Nat) : CPU :=
  let c := { c with register_a := value }
  c.update_zero_and_negative_flags c.register_a

/-- `CPU::add_to_register_a`: 16-bit intermediate add with carry-in,
then carry/overflow updates. -/
def CPU.add_to_register_a (c : CPU) (value : Nat) : CPU :=
  let result := c.register_a + value + (if c.status &&& CARRY_FLAG = CARRY_FLAG then 1 else 0)
  let c :=
    if 0xFF < result then { c with status := c.status ||| CARRY_FLAG }
    else { c with status := c.status &&& 0xFE }   -- !CARRY_FLAG
  let tmp := result % 256
  let c :=
    if (value ^^^ tmp) &&& (tmp ^^^ c.register_a) &&& NEGATIVE_FLAG ≠ 0 then
      { c with status := c.status ||| OVERFLOW_FLAG }
    else { c with status := c.status &&& 0xBF }   -- !OVERFLOW_FLAG
  c.set_register_a tmp

/-- `CPU::stack_pop` (returns the popped byte and the new state). -/
def CPU.stack_pop (c : CPU) : Nat × CPU :=
  let c := { c with stack_pointer := wrappingAdd8 c.stack_pointer 1 }
  (c.mem_read (STACK + c.stack_pointer), c)

/-- `CPU::stack_push`. -/
def CPU.stack_push (c : CPU) (data : Nat) : CPU :=
  let c := c.mem_write (STACK + c.stack_pointer) data
  { c with stack_pointer := wrappingSub8 c.stack_pointer 1 }

/-- `CPU::stack_pop_u16`. -/
def CPU.stack_pop_u16 (c : CPU) : Nat × CPU :=
  let (lo, c) := c.stack_pop
  let (hi, c) := c.stack_pop
  (hi <<< 8 ||| lo, c)

/-- `CPU::stack_push_u16`. -/
def CPU.stack_push_u16 (c : CPU) (data : Nat) : CPU :=
  let hi := (data >>> 8) % 256
  let lo := data &&& 0xFF
  let c := c.stack_push hi
  c.stack_push lo

/-- `CPU::adc`. -/
def CPU.adc (c : CPU) (mode : AddressingMode) : Except Fault CPU := do
  let addr ← c.get_operand_address mode
  let value := c.mem_read addr
  pure (c.add_to_register_a value)

/-- `CPU::and` (named `and_op` because `and` is taken in Lean). -/
def CPU.and_op (c : CPU) (mode : AddressingMode) : Except Fault CPU := do
  let addr ← c.get_operand_address mode
  let value := c.mem_read addr
  pure (c.set_register_a (value &&& c.register_a))

/-- `CPU::asl_accumulator`. -/
def CPU.asl_accumulator (c : CPU) : CPU :=
  let data := c.register_a
  let c :=
    if data >>> 7 = 1 then { c with status := c.status ||| CARRY_FLAG }
    else { c with status := c.status &&& 0xFE }   -- !CARRY_FLAG
  let data := (data <<< 1) % 256
  let c := { c with register_a := data }
  c.update_zero_and_negative_flags c.register_a

/-- `CPU::asl` (memory form; returns the written byte). -/
def CPU.asl (c : CPU) (mode : AddressingMode) : Except Fault (Nat × CPU) := do
  let addr ← c.get_operand_address mode
  let data := c.mem_read addr
  let c :=
    if data >>> 7 = 1 then { c with status := c.status ||| CARRY_FLAG }
    else { c with status := c.status &&& 0xFE }   -- !CARRY_FLAG
  let data := (data <<< 1) % 256
  let c := c.mem_write addr data
  pure (data, c.update_zero_and_negative_flags data)

/-- `CPU::branch`: sign-extend the relative operand and move the program
counter past the operand plus the offset. -/
def CPU.branch (c : CPU) : CPU :=
  let b := c.mem_read c.program_counter
  let off := if b < 128 then b else 0xFF00 + b   -- `branch as i8 as u16`
  { c with program_counter := wrappingAdd16 (wrappingAdd16 c.program_counter 1) off }

/-- `CPU::bcc`. -/
def CPU.bcc (c : CPU) : CPU :=
  if ¬c.status &&& CARRY_FLAG = CARRY_FLAG then c.branch else c

/-- `CPU::bcs`. -/
def CPU.bcs (c : CPU) : CPU :=
  if c.status &&& CARRY_FLAG = CARRY_FLAG then c.branch else c

/-- `CPU::beq`. -/
def CPU.beq (c : CPU) : CPU :=
  if c.status &&& ZERO_FLAG = ZERO_FLAG then c.branch else c

/-- `CPU::bit`. -/
def CPU.bit (c : CPU) (mode : AddressingMode) : Except Fault CPU := do
  let addr ← c.get_operand_address mode
  let value := c.mem_read addr
  let tmp := c.register_a &&& value
  let c :=
    if tmp = 0 then { c with status := c.status ||| ZERO_FLAG }
    else { c with status := c.status &&& 0xFD }   -- !ZERO_FLAG
  let c :=
    if 0 < value &&& 0x80 then { c with status := c.status ||| NEGATIVE_FLAG }
    else { c with status := c.status &&& 0x7F }   -- !NEGATIVE_FLAG
  let c :=
    if 0 < value &&& 0x40 then { c with status := c.status ||| OVERFLOW_FLAG }
    else { c with status := c.status &&& 0xBF }   -- !OVERFLOW_FLAG
  pure c

/-- `CPU::bmi`. -/
def CPU.bmi (c : CPU) : CPU :=
  if c.status &&& NEGATIVE_FLAG = NEGATIVE_FLAG then c.branch else c

/-- `CPU::bne`. -/
def CPU.bne (c : CPU) : CPU :=
  if c.status &&& ZERO_FLAG = CLEAR_STATUS then c.branch else c

/-- `CPU::bpl`. -/
def CPU.bpl (c : CPU) : CPU :=
  if c.status &&& NEGATIVE_FLAG = CLEAR_STATUS then c.branch else c

/-- `CPU::brk` (empty body in the source). -/
def CPU.brk (c : CPU) : CPU := c

/-- `CPU::bvc`. -/
def CPU.bvc (c : CPU) : CPU :=
  if c.status &&& OVERFLOW_FLAG = CLEAR_STATUS then c.branch else c

/-- `CPU::bvs`. -/
def CPU.bvs (c : CPU) : CPU :=
  if c.status &&& OVERFLOW_FLAG = OVERFLOW_FLAG then c.branch else c

/-- `CPU::clc` (clears carry by subtracting 1 when it is set). -/
def CPU.clc (c : CPU) : CPU :=
  if c.status &&& CARRY_FLAG = CARRY_FLAG then { c with status := c.status - 1 } else c

/-- `CPU::cld`. -/
def CPU.cld (c : CPU) : CPU :=
  if c.status &&& DECIMAL_MODE_FLAG = DECIMAL_MODE_FLAG then
    { c with status := c.status - DECIMAL_MODE_FLAG } else c

/-- `CPU::cli`. -/
def CPU.cli (c : CPU) : CPU :=
  if c.status &&& INTERRUPT_DISABLE = INTERRUPT_DISABLE then
    { c with status := c.status - INTERRUPT_DISABLE } else c

/-- `CPU::clv`. -/
def CPU.clv (c : CPU) : CPU :=
  if c.status &&& OVERFLOW_FLAG = OVERFLOW_FLAG then
    { c with status := c.status - OVERFLOW_FLAG } else c

/-- `CPU::compare`. -/
def CPU.compare (c : CPU) (cmp_data value : Nat) : CPU :=
  let c :=
    if value ≤ cmp_data then { c with status := c.status ||| CARRY_FLAG }
    else { c with status := c.status &&& 0xFE }   -- !CARRY_FLAG
  let res := wrappingSub8 cmp_data value
  c.update_zero_and_negative_flags res

/-- `CPU::cmp`. -/
def CPU.cmp (c : CPU) (mode : AddressingMode) : Except Fault CPU := do
  let addr ← c.get_operand_address mode
  pure (c.compare c.register_a (c.mem_read addr))

/-- `CPU::cpx`. -/
def CPU.cpx (c : CPU) (mode : AddressingMode) : Except Fault CPU := do
  let addr ← c.get_operand_address mode
  pure (c.compare c.register_x (c.mem_read addr))

/-- `CPU::cpy`. -/
def CPU.cpy (c : CPU) (mode : AddressingMode) : Except Fault CPU := do
  let addr ← c.get_operand_address mode
  pure (c.compare c.register_y (c.mem_read addr))

/-- `CPU::dec`. -/
def CPU.dec (c : CPU) (mode : AddressingMode) : Except Fault (Nat × CPU) := do
  let addr ← c.get_operand_address mode
  let value := c.mem_read addr
  let res := wrappingSub8 value 1
  let c := c.mem_write addr res
  pure (res, c.update_zero_and_negative_flags res)

/-- `CPU::dex`. -/
def CPU.dex (c : CPU) : CPU :=
  let c := { c with register_x := wrappingSub8 c.register_x 1 }
  c.update_zero_and_negative_flags c.register_x

/-- `CPU::dey`. -/
def CPU.dey (c : CPU) : CPU :=
  let c := { c with register_y := wrappingSub8 c.register_y 1 }
  c.update_zero_and_negative_flags c.register_y

/-- `CPU::eor`. -/
def CPU.eor (c : CPU) (mode : AddressingMode) : Except Fault CPU := do
  let addr ← c.get_operand_address mode
  let value := c.mem_read addr
  let c := { c with register_a := c.register_a ^^^ value }
  pure (c.update_zero_and_negative_flags c.register_a)

/-- `CPU::inc`. -/
def CPU.inc (c : CPU) (mode : AddressingMode) : Except Fault CPU := do
  let addr ← c.get_operand_address mode
  let value := wrappingAdd8 (c.mem_read addr) 1
  let c := c.mem_write addr value
  pure (c.update_zero_and_negative_flags value)

/-- `CPU::inx`. -/
def CPU.inx (c : CPU) : CPU :=
  let c := { c with register_x := wrappingAdd8 c.register_x 1 }
  c.update_zero_and_negative_flags c.register_x

/-- `CPU::iny`. -/
def CPU.iny (c : CPU) : CPU :=
  let c := { c with register_y := wrappingAdd8 c.register_y 1 }
  c.update_zero_and_negative_flags c.register_y

/-- `CPU::jmp`. -/
def CPU.jmp (c : CPU) (mode : AddressingMode) : Except Fault CPU := do
  let addr ← c.get_operand_address mode
  pure { c with program_counter := addr }

/-- `CPU::jsr`. -/
def CPU.jsr (c : CPU) (mode : AddressingMode) : Except Fault CPU := do
  let c := c.stack_push_u16 ((c.program_counter + 2 - 1) % 65536)
  let addr ← c.get_operand_address mode
  pure { c with program_counter := addr }

/-- `CPU::lda`. -/
def CPU.lda (c : CPU) (mode : AddressingMode) : Except Fault CPU := do
  let addr ← c.get_operand_address mode
  let value := c.mem_read addr
  let c := { c with register_a := value }
  pure (c.set_register_a value)

/-- `CPU::ldx`. -/
def CPU.ldx (c : CPU) (mode : AddressingMode) : Except Fault CPU := do
  let addr ← c.get_operand_address mode
  let c := { c with register_x := c.mem_read addr }
  pure (c.update_zero_and_negative_flags c.register_x)

/-- `CPU::ldy`. -/
def CPU.ldy (c : CPU) (mode : AddressingMode) : Except Fault CPU := do
  let addr ← c.get_operand_address mode
  let c := { c with register_y := c.mem_read addr }
  pure (c.update_zero_and_negative_flags c.register_y)

/-- `CPU::lsr_accumulator`. -/
def CPU.lsr_accumulator (c : CPU) : CPU :=
  let data := c.register_a
  let c :=
    if data &&& 1 = 1 then { c with status := c.status ||| CARRY_FLAG }
    else { c with status := c.status &&& 0xFE }   -- !CARRY_FLAG
  c.set_register_a (data >>> 1)

/-- `CPU::lsr` (memory form; returns the written byte). -/
def CPU.lsr (c : CPU) (mode : AddressingMode) : Except Fault (Nat × CPU) := do
  let addr ← c.get_operand_address mode
  let value := c.mem_read addr
  let c :=
    if value &&& 1 = 1 then { c with status := c.status ||| CARRY_FLAG }
    else { c with status := c.status &&& 0xFE }   -- !CARRY_FLAG
  let value := value >>> 1
  let c := c.mem_write addr value
  pure (value, c.update_zero_and_negative_flags value)

/-- `CPU::nop`. -/
def CPU.nop (c : CPU) : CPU := c

/-- `CPU::ora`. -/
def CPU.ora (c : CPU) (mode : AddressingMode) : Except Fault CPU := do
  let addr ← c.get_operand_address mode
  let value := c.mem_read addr
  pure (c.set_register_a (value ||| c.register_a))

/-- `CPU::pha`. -/
def CPU.pha (c : CPU) : CPU := c.stack_push c.register_a

/-- `CPU::php` (pushes status with Break and Break2 forced on). -/
def CPU.php (c : CPU) : CPU :=
  let copy := c.status ||| BREAK_COMMAND ||| BREAK2_COMMAND
  c.stack_push copy

/-- `CPU::pla`. -/
def CPU.pla (c : CPU) : CPU :=
  let (value, c) := c.stack_pop
  c.set_register_a value

/-- `CPU::plp` (pops status, clears Break, forces Break2). -/
def CPU.plp (c : CPU) : CPU :=
  let (value, c) := c.stack_pop
  let c := { c with status := value }
  let c := { c with status := c.status &&& 0xEF }   -- !BREAK_COMMAND
  { c with status := c.status ||| BREAK2_COMMAND }

/-- `CPU::rol_accumulator`. -/
def CPU.rol_accumulator (c : CPU) : CPU :=
  let value := c.register_a
  let tmp := c.status &&& CARRY_FLAG
  let c :=
    if value >>> 7 = 1 then { c with status := c.status ||| CARRY_FLAG }
    else { c with status := c.status &&& 0xFE }   -- !CARRY_FLAG
  let value := (value <<< 1) % 256
  let value := if tmp ≠ 0 then value ||| 1 else value
  c.set_register_a value

/-- `CPU::rol` (memory form; note it finishes with
`update_negative_flags`, not `update_zero_and_negative_flags`). -/
def CPU.rol (c : CPU) (mode : AddressingMode) : Except Fault (Nat × CPU) := do
  let addr ← c.get_operand_address mode
  let value := c.mem_read addr
  let tmp := c.status &&& CARRY_FLAG
  let c :=
    if value >>> 7 = 1 then { c with status := c.status ||| CARRY_FLAG }
    else { c with status := c.status &&& 0xFE }   -- !CARRY_FLAG
  let value := (value <<< 1) % 256
  let value := if tmp ≠ 0 then value ||| 1 else value
  let c := c.mem_write addr value
  pure (value, c.update_negative_flags value)

/-- `CPU::ror_accumulator`. -/
def CPU.ror_accumulator (c : CPU) : CPU :=
  let value := c.register_a
  let tmp := c.status &&& CARRY_FLAG
  let c :=
    if value &&& 1 = 1 then { c with status := c.status ||| CARRY_FLAG }
    else { c with status := c.status &&& 0xFE }   -- !CARRY_FLAG
  let value := value >>> 1
  let value := if tmp = CARRY_FLAG then value ||| 0x80 else value
  c.set_register_a value

/-- `CPU::ror` (memory form; finishes with `update_negative_flags`). -/
def CPU.ror (c : CPU) (mode : AddressingMode) : Except Fault (Nat × CPU) := do
  let addr ← c.get_operand_address mode
  let value := c.mem_read addr
  let tmp := c.status &&& CARRY_FLAG
  let c :=
    if value &&& 1 = 1 then { c with status := c.status ||| CARRY_FLAG }
    else { c with status := c.status &&& 0xFE }   -- !CARRY_FLAG
  let value := value >>> 1
  let value := if tmp = 1 then value ||| NEGATIVE_FLAG else value &&& 0x7F
  let c := c.mem_write addr value
  pure (value, c.update_negative_flags value)

/-- `CPU::rti`. -/
def CPU.rti (c : CPU) : CPU :=
  let (value, c) := c.stack_pop
  let c := { c with status := value }
  let c := { c with status := c.status &&& 0xEF }   -- !BREAK_COMMAND
  let c := { c with status := c.status ||| BREAK2_COMMAND }
  let (pc, c) := c.stack_pop_u16
  { c with program_counter := pc }

/-- `CPU::rts`. -/
def CPU.rts (c : CPU) : CPU :=
  let (pc, c) := c.stack_pop_u16
  { c with program_counter := (pc + 1) % 65536 }

/-- `CPU::sbc`: adds the bitwise complement of the operand
(`(value as i8).wrapping_neg().wrapping_sub(1) as u8`). -/
def CPU.sbc (c : CPU) (mode : AddressingMode) : Except Fault CPU := do
  let addr ← c.get_operand_address mode
  let value := c.mem_read addr
  pure (c.add_to_register_a (wrappingSub8 (wrappingNeg8 value) 1))

/-- `CPU::sec`. -/
def CPU.sec (c : CPU) : CPU := { c with status := c.status ||| CARRY_FLAG }

/-- `CPU::sed`. -/
def CPU.sed (c : CPU) : CPU := { c with status := c.status ||| DECIMAL_MODE_FLAG }

/-- `CPU::sei`. -/
def CPU.sei (c : CPU) : CPU := { c with status := c.status ||| INTERRUPT_DISABLE }

/-- `CPU::sta`. -/
def CPU.sta (c : CPU) (mode : AddressingMode) : Except Fault CPU := do
  let addr ← c.get_operand_address mode
  pure (c.mem_write addr c.register_a)

/-- `CPU::stx`. -/
def CPU.stx (c : CPU) (mode : AddressingMode) : Except Fault CPU := do
  let addr ← c.get_operand_address mode
  pure (c.mem_write addr c.register_x)

/-- `CPU::sty`. -/
def CPU.sty (c : CPU) (mode : AddressingMode) : Except Fault CPU := do
  let addr ← c.get_operand_address mode
  pure (c.mem_write addr c.register_y)

/-- `CPU::tax`. -/
def CPU.tax (c : CPU) : CPU :=
  let c := { c with register_x := c.register_a }
  c.update_zero_and_negative_flags c.register_x

/-- `CPU::tay`. -/
def CPU.tay (c : CPU) : CPU :=
  let c := { c with register_y := c.register_a }
  c.update_zero_and_negative_flags c.register_y

/-- `CPU::tsx`. -/
def CPU.tsx (c : CPU) : CPU :=
  let c := { c with register_x := c.stack_pointer }
  c.update_zero_and_negative_flags c.register_x

/-- `CPU::txa`. -/
def CPU.txa (c : CPU) : CPU :=
  let c := { c with register_a := c.register_x }
  c.update_zero_and_negative_flags c.register_a

/-- `CPU::txs`. -/
def CPU.txs (c : CPU) : CPU := { c with stack_pointer := c.register_x }

/-- `CPU::tya`. -/
def CPU.tya (c : CPU) : CPU :=
  let c := { c with register_a := c.register_y }
  c.update_zero_and_negative_flags c.register_a

/-! ### Undocumented opcodes (src/src/cpu.rs, "unofficial" section) -/

/-- `CPU::anc`. -/
def CPU.anc (c : CPU) (mode : AddressingMode) : Except Fault CPU := do
  let addr ← c.get_operand_address mode
  let value := c.mem_read addr
  let c := c.set_register_a (c.register_a &&& value)
  if c.register_a &&& NEGATIVE_FLAG = NEGATIVE_FLAG then
    pure { c with status := c.status ||| CARRY_FLAG }
  else
    pure { c with status := c.status &&& 0xFE }   -- !CARRY_FLAG

/-- `CPU::sax`. -/
def CPU.sax (c : CPU) (mode : AddressingMode) : Except Fault CPU := do
  let addr ← c.get_operand_address mode
  let res := c.register_x &&& c.register_a
  pure (c.mem_write addr res)

/-- `CPU::arr`. -/
def CPU.arr (c : CPU) (mode : AddressingMode) : Except Fault CPU := do
  let addr ← c.get_operand_address mode
  let value := c.mem_read addr
  let c := c.set_register_a (c.register_a &&& value)
  let c := c.ror_accumulator
  let res_bit_5 := (c.register_a >>> 5) &&& 1
  let res_bit_6 := (c.register_a >>> 6) &&& 1
  let c :=
    if res_bit_5 = 1 ∧ res_bit_6 = 1 then
      { c with status := (c.status ||| CARRY_FLAG) &&& 0xBF }
    else if res_bit_5 = 0 ∧ res_bit_6 = 0 then
      { c with status := (c.status &&& 0xFE) &&& 0xBF }
    else if res_bit_5 = 1 ∧ res_bit_6 = 0 then
      { c with status := (c.status &&& 0xFE) ||| OVERFLOW_FLAG }
    else if res_bit_5 = 0 ∧ res_bit_6 = 1 then
      { c with status := (c.status ||| CARRY_FLAG) &&& 0xBF }
    else c
  pure (c.update_zero_and_negative_flags c.register_a)

/-- `CPU::alr`. -/
def CPU.alr (c : CPU) (mode : AddressingMode) : Except Fault CPU := do
  let addr ← c.get_operand_address mode
  let value := c.mem_read addr
  let c := c.set_register_a (c.register_a &&& value)
  pure c.lsr_accumulator

/-- `CPU::lxa`. -/
def CPU.lxa (c : CPU) (mode : AddressingMode) : Except Fault CPU := do
  let addr ← c.get_operand_address mode
  let value := c.mem_read addr
  let c := c.set_register_a (c.register_a &&& value)
  let c := { c with register_x := c.register_a }
  pure (c.update_zero_and_negative_flags c.register_a)

/-- `CPU::ahx`. -/
def CPU.ahx (c : CPU) (mode : AddressingMode) : Except Fault CPU := do
  let addr ← c.get_operand_address mode
  let res := c.register_x &&& c.register_a &&& ((addr >>> 8) % 256)
  pure (c.mem_write addr res)

/-- `CPU::axs`.  Note `tmp.wrapping_sub(tmp)`: the subtraction uses `tmp`
on both sides, so `res` is always zero. -/
def CPU.axs (c : CPU) (mode : AddressingMode) : Except Fault CPU := do
  let addr ← c.get_operand_address mode
  let value := c.mem_read addr
  let tmp := c.register_x &&& c.register_a
  let res := wrappingSub8 tmp tmp
  let c :=
    if value ≤ tmp then { c with status := c.status ||| CARRY_FLAG } else c
  let c := c.update_zero_and_negative_flags res
  pure { c with register_x := res }

/-- `CPU::dcp`. -/
def CPU.dcp (c : CPU) (mode : AddressingMode) : Except Fault CPU := do
  let addr ← c.get_operand_address mode
  let value := c.mem_read addr
  let res := wrappingSub8 value 1
  let c := c.mem_write addr res
  let c :=
    if res ≤ c.register_a then { c with status := c.status ||| CARRY_FLAG } else c
  pure (c.update_zero_and_negative_flags (wrappingSub8 c.register_a res))

/-- `CPU::nop_dop`. -/
def CPU.nop_dop (c : CPU) : CPU := c

/-- `CPU::isb`. -/
def CPU.isb (c : CPU) (mode : AddressingMode) : Except Fault CPU := do
  let addr ← c.get_operand_address mode
  let value := c.mem_read addr
  let res := wrappingAdd8 value 1
  let c := c.update_zero_and_negative_flags res
  let c := c.add_to_register_a (wrappingSub8 (wrappingNeg8 res) 1)
  pure (c.mem_write addr res)

/-- `CPU::kil` (no-op body in the source). -/
def CPU.kil (c : CPU) : CPU := c

/-- `CPU::las`. -/
def CPU.las (c : CPU) (mode : AddressingMode) : Except Fault CPU := do
  let addr ← c.get_operand_address mode
  let value := c.mem_read addr
  let res := value &&& c.stack_pointer
  let c := { c with register_a := res, register_x := res, stack_pointer := res }
  pure (c.update_zero_and_negative_flags res)

/-- `CPU::lax`. -/
def CPU.lax (c : CPU) (mode : AddressingMode) : Except Fault CPU := do
  let addr ← c.get_operand_address mode
  let value := c.mem_read addr
  let c := c.set_register_a value
  pure { c with register_x := value }

/-- `CPU::rla`. -/
def CPU.rla (c : CPU) (mode : AddressingMode) : Except Fault CPU := do
  let (value, c) ← c.rol mode
  pure (c.set_register_a (value &&& c.register_a))

/-- `CPU::rra`. -/
def CPU.rra (c : CPU) (mode : AddressingMode) : Except Fault CPU := do
  let (value, c) ← c.ror mode
  pure (c.add_to_register_a value)

/-- `CPU::sbc_ex`. -/
def CPU.sbc_ex (c : CPU) (mode : AddressingMode) : Except Fault CPU :=
  c.sbc mode

/-- `CPU::slo`. -/
def CPU.slo (c : CPU) (mode : AddressingMode) : Except Fault CPU := do
  let (value, c) ← c.asl mode
  let c := { c with register_a := c.register_a ||| value }
  pure (c.update_zero_and_negative_flags c.register_a)

/-- `CPU::sre`. -/
def CPU.sre (c : CPU) (mode : AddressingMode) : Except Fault CPU := do
  let (value, c) ← c.lsr mode
  let c := { c with register_a := c.register_a ^^^ value }
  pure (c.update_zero_and_negative_flags c.register_a)

/-- `CPU::shx` (`addr >> 8 as u8` parses as `addr >> (8 as u8)`). -/
def CPU.shx (c : CPU) (mode : AddressingMode) : Except Fault CPU := do
  let addr ← c.get_operand_address mode
  let tmp := wrappingAdd16 (addr >>> 8) 1 % 256
  let res := c.register_x &&& tmp
  pure (c.mem_write addr res)

/-- `CPU::shy`. -/
def CPU.shy (c : CPU) (mode : AddressingMode) : Except Fault CPU := do
  let addr ← c.get_operand_address mode
  let tmp := wrappingAdd16 (addr >>> 8) 1 % 256
  let res := c.register_y &&& tmp
  pure (c.mem_write addr res)

/-- `CPU::nop_top`. -/
def CPU.nop_top (c : CPU) : CPU := c

/-- `CPU::xaa`. -/
def CPU.xaa (c : CPU) (mode : AddressingMode) : Except Fault CPU := do
  let c := { c with register_a := c.register_x }
  let c := c.update_zero_and_negative_flags c.register_a
  let addr ← c.get_operand_address mode
  let data := c.mem_read addr
  pure (c.set_register_a (data &&& c.register_a))

/-- `CPU::tas`. -/
def CPU.tas (c : CPU) (mode : AddressingMode) : Except Fault CPU := do
  let addr ← c.get_operand_address mode
  let res := c.register_x &&& c.register_a
  let c := { c with stack_pointer := res }
  let res1 := c.stack_pointer &&& (wrappingAdd16 (addr >>> 8) 1 % 256)
  pure (c.mem_write addr res1)

/-- `CPU::crash`: reads back the opcode byte and panics. -/
def CPU.crash (c : CPU) : Except Fault (Option CPU) :=
  .error (.unknownOpcode (c.mem_read (wrappingSub16 c.program_counter 1)))

/-- Result of one trip around the `run_with_callback` loop: either the
loop continues with a new CPU state, or the BRK arm executed `return`. -/
inductive StepResult where
  | next (c : CPU)
  | halted (c : CPU)

/-- One iteration of the `CPU::run_with_callback` loop body, minus the
host callback (which cannot change the CPU).  The loop reads the opcode
byte, advances the program counter, dispatches on the opcode, and then
skips the operand bytes unless the instruction moved the program counter
itself.  Note the loop performs no interrupt polling and no bus cycle
reporting of any kind. -/
def CPU.step (c : CPU) : Except Fault StepResult := do
  let code := c.mem_read c.program_counter
  let c := { c with program_counter := (c.program_counter + 1) % 65536 }
  let program_counter_state := c.program_counter
  match OPCODES_MAP code with
  | none => .error (.unknownOpcode code)
  | some opcode => do
    let r : Option CPU ←
      match code with
      -- ADC (Add with Carry)
      | 0x69 | 0x65 | 0x75 | 0x6D | 0x7D | 0x79 | 0x61 | 0x71 => do
          pure (some (← c.adc opcode.mode))
      -- AND (Logical AND)
      | 0x29 | 0x25 | 0x35 | 0x2D | 0x3D | 0x39 | 0x21 | 0x31 => do
          pure (some (← c.and_op opcode.mode))
      -- ASL (Arithmetic Shift Left Accumulator)
      | 0x0A => pure (some c.asl_accumulator)
      -- ASL (Arithmetic Shift Left other)
      | 0x06 | 0x16 | 0x0E | 0x1E => do
          pure (some (← c.asl opcode.mode).2)
      -- BCC (Branch if Carry Clear)
      | 0x90 => pure (some c.bcc)
      -- BCS (Branch if Carry Set)
      | 0xB0 => pure (some c.bcs)
      -- BEQ (Branch if Equal)
      | 0xF0 => pure (some c.beq)
      -- BIT (Bit Test)
      | 0x24 | 0x2C => do
          pure (some (← c.bit opcode.mode))
      -- BMI (Branch if Minus)
      | 0x30 => pure (some c.bmi)
      -- BNE (Branch if Not Equal)
      | 0xD0 => pure (some c.bne)
      -- BPL (Branch if Positive)
      | 0x10 => pure (some c.bpl)
      -- BRK (Force Interrupt): `return` exits the run loop
      | 0x00 => pure none
      -- BVC (Branch if Overflow Clear)
      | 0x50 => pure (some c.bvc)
      -- BVS (Branch if Overflow Set)
      | 0x70 => pure (some c.bvs)
      -- CLC (Clear Carry Flag)
      | 0x18 => pure (some c.clc)
      -- CLD (Clear Decimal Mode)
      | 0xD8 => pure (some c.cld)
      -- CLI (Clear Interrupt Disable)
      | 0x58 => pure (some c.cli)
      -- CLV (Clear Overflow Flag)
      | 0xB8 => pure (some c.clv)
      -- CMP (Compare)
      | 0xC9 | 0xC5 | 0xD5 | 0xCD | 0xDD | 0xD9 | 0xC1 | 0xD1 => do
          pure (some (← c.cmp opcode.mode))
      -- CPX (Compare X Register)
      | 0xE0 | 0xE4 | 0xEC => do
          pure (some (← c.cpx opcode.mode))
      -- CPY (Compare Y Register)
      | 0xC0 | 0xC4 | 0xCC => do
          pure (some (← c.cpy opcode.mode))
      -- DEC (Decrement Memory)
      | 0xC6 | 0xD6 | 0xCE | 0xDE => do
          pure (some (← c.dec opcode.mode).2)
      -- DEX (Decrement X Register)
      | 0xCA => pure (some c.dex)
      -- DEY (Decrement Y Register)
      | 0x88 => pure (some c.dey)
      -- EOR (Exclusive OR)
      | 0x49 | 0x45 | 0x55 | 0x4D | 0x5D | 0x59 | 0x41 | 0x51 => do
          pure (some (← c.eor opcode.mode))
      -- INC (Increment Memory)
      | 0xE6 | 0xF6 | 0xEE | 0xFE => do
          pure (some (← c.inc opcode.mode))
      -- INX (Increment X Register)
      | 0xE8 => pure (some c.inx)
      -- INY (Increment Y Register)
      | 0xC8 => pure (some c.iny)
      -- JMP (Jump)
      | 0x4C | 0x6C => do
          pure (some (← c.jmp opcode.mode))
      -- JSR (Jump to Subroutine)
      | 0x20 => do
          pure (some (← c.jsr opcode.mode))
      -- LDA (Load Accumulator)
      | 0xA9 | 0xA5 | 0xB5 | 0xAD | 0xBD | 0xB9 | 0xA1 | 0xB1 => do
          pure (some (← c.lda opcode.mode))
      -- LDX (Load X Register)
      | 0xA2 | 0xA6 | 0xB6 | 0xAE | 0xBE => do
          pure (some (← c.ldx opcode.mode))
      -- LDY (Load Y Register)
      | 0xA0 | 0xA4 | 0xB4 | 0xAC | 0xBC => do
          pure (some (← c.ldy opcode.mode))
      -- LSR (Logic Shift Right Accumulator)
      | 0x4A => pure (some c.lsr_accumulator)
      -- LSR (Logic Shift Right)
      | 0x46 | 0x56 | 0x4E | 0x5E => do
          pure (some (← c.lsr opcode.mode).2)
      -- NOP (No Operation)
      | 0xEA => pure (some c.nop)
      -- ORA (Logical Inclusive OR)
      | 0x09 | 0x05 | 0x15 | 0x0D | 0x1D | 0x19 | 0x01 | 0x11 => do
          pure (some (← c.ora opcode.mode))
      -- PHA (Push Accumulator)
      | 0x48 => pure (some c.pha)
      -- PHP (Push Processor Status)
      | 0x08 => pure (some c.php)
      -- PLA (Pull Accumulator)
      | 0x68 => pure (some c.pla)
      -- PLP (Pull Processor Status)
      | 0x28 => pure (some c.plp)
      -- ROL (Rotate Left Accumulator)
      | 0x2A => pure (some c.rol_accumulator)
      -- ROL (Rotate Left)
      | 0x26 | 0x36 | 0x2E | 0x3E => do
          pure (some (← c.rol opcode.mode).2)
      -- ROR (Rotate Right Accumulator)
      | 0x6A => pure (some c.ror_accumulator)
      -- ROR (Rotate Right)
      | 0x66 | 0x76 | 0x6E | 0x7E => do
          pure (some (← c.ror opcode.mode).2)
      -- RTI (Return from Interrupt)
      | 0x40 => pure (some c.rti)
      -- RTS (Return from Subroutine)
      | 0x60 => pure (some c.rts)
      -- SBC (Subtract with Carry)
      | 0xE9 | 0xE5 | 0xF5 | 0xED | 0xFD | 0xF9 | 0xE1 | 0xF1 => do
          pure (some (← c.sbc opcode.mode))
      -- SEC (Set Carry Flag)
      | 0x38 => pure (some c.sec)
      -- SED (Set Decimal Flag)
      | 0xF8 => pure (some c.sed)
      -- SEI (Set Interrupt Disable)
      | 0x78 => pure (some c.sei)
      -- STA (Store Accumulator)
      | 0x85 | 0x95 | 0x8D | 0x9D | 0x99 | 0x81 | 0x91 => do
          pure (some (← c.sta opcode.mode))
      -- STX (Store X Register)
      | 0x86 | 0x96 | 0x8E => do
          pure (some (← c.stx opcode.mode))
      -- STY (Store Y Register)
      | 0x84 | 0x94 | 0x8C => do
          pure (some (← c.sty opcode.mode))
      -- TAX (Transfer Accumulator to X)
      | 0xAA => pure (some c.tax)
      -- TAY (Transfer Accumulator to Y)
      | 0xA8 => pure (some c.tay)
      -- TSX (Transfer Stack Pointer to X)
      | 0xBA => pure (some c.tsx)
      -- TXA (Transfer X to Accumulator)
      | 0x8A => pure (some c.txa)
      -- TXS (Transfer X to Stack Pointer)
      | 0x9A => pure (some c.txs)
      -- TYA (Transfer Y to Accumulator)
      | 0x98 => pure (some c.tya)
      -- illegal opcodes
      -- *ANC(AAC)
      | 0x0B | 0x2B => do
          pure (some (← c.anc opcode.mode))
      -- *SAX(AAX)
      | 0x87 | 0x97 | 0x8F | 0x83 => do
          pure (some (← c.sax opcode.mode))
      -- *ARR
      | 0x6B => do pure (some (← c.arr opcode.mode))
      -- *ALR
      | 0x4B => do pure (some (← c.alr opcode.mode))
      -- *LXA(ATX)
      | 0xAB => do pure (some (← c.lxa opcode.mode))
      -- *AHX(AXA)
      | 0x9F | 0x93 => do pure (some (← c.ahx opcode.mode))
      -- *AXS
      | 0xCB => do pure (some (← c.axs opcode.mode))
      -- *DCP
      | 0xC7 | 0xD7 | 0xCF | 0xDF | 0xDB | 0xD3 | 0xC3 => do
          pure (some (← c.dcp opcode.mode))
      -- *NOP(DOP) (No Operation)
      | 0x04 | 0x14 | 0x34 | 0x44 | 0x54 | 0x64 | 0x74
      | 0x80 | 0x82 | 0x89 | 0xC2 | 0xD4 | 0xE2 | 0xF4 =>
          pure (some c.nop_dop)
      -- *ISB(ISC)
      | 0xE7 | 0xF7 | 0xEF | 0xFF | 0xFB | 0xE3 | 0xF3 => do
          pure (some (← c.isb opcode.mode))
      -- *NOP(KIL)
      | 0x02 | 0x12 | 0x22 | 0x32 | 0x42 | 0x52 | 0x62 | 0x72 | 0x92 | 0xB2
      | 0xD2 | 0xF2 =>
          pure (some c.kil)
      -- *LAS(LAR)
      | 0xBB => do pure (some (← c.las opcode.mode))
      -- *LAX
      | 0xA7 | 0xB7 | 0xAF | 0xBF | 0xA3 | 0xB3 => do
          pure (some (← c.lax opcode.mode))
      -- *NOP(NOP)
      | 0x1A | 0x3A | 0x5A | 0x7A | 0xDA | 0xFA =>
          pure (some c.nop)
      -- *RLA
      | 0x27 | 0x37 | 0x2F | 0x3F | 0x3B | 0x23 | 0x33 => do
          pure (some (← c.rla opcode.mode))
      -- *RRA
      | 0x67 | 0x77 | 0x6F | 0x7F | 0x7B | 0x63 | 0x73 => do
          pure (some (← c.rra opcode.mode))
      -- *SBC
      | 0xEB => do pure (some (← c.sbc_ex opcode.mode))
      -- *SLO
      | 0x07 | 0x17 | 0x0F | 0x1F | 0x1B | 0x03 | 0x13 => do
          pure (some (← c.slo opcode.mode))
      -- *SRE
      | 0x47 | 0x57 | 0x4F | 0x5F | 0x5B | 0x43 | 0x53 => do
          pure (some (← c.sre opcode.mode))
      -- *SHX(SXA)
      | 0x9E => do pure (some (← c.shx opcode.mode))
      -- *SHY(SYA)
      | 0x9C => do pure (some (← c.shy opcode.mode))
      -- *NOP(TOP)
      | 0x0C | 0x1C | 0x3C | 0x5C | 0x7C | 0xDC | 0xFC =>
          pure (some c.nop_top)
      -- *XAA
      | 0x8B => do pure (some (← c.xaa opcode.mode))
      -- *TAS(XAS)
      | 0x9B => do pure (some (← c.tas opcode.mode))
      -- other opcode (crash)
      | _ => c.crash
    match r with
    | none => pure (StepResult.halted c)
    | some c' =>
        if program_counter_state = c'.program_counter then
          pure (StepResult.next
            { c' with program_counter := (c'.program_counter + (opcode.len - 1)) % 65536 })
        else
          pure (StepResult.next c')

/-! ## Cartridge (src/src/cartridge.rs) -/

inductive Mirroring where
  | VERTICAL
  | HORIZONTAL
  | FOUR_SCREEN
  deriving Repr, DecidableEq

/-! ## PPU registers (src/src/ppu/registers) -/

/-- `AddrRegister` (registers/addr.rs): big-endian two-byte latch.
`value.0` is the high byte, `value.1` the low byte. -/
structure AddrRegister where
  value_hi : Nat
  value_lo : Nat
  hi_ptr : Bool
  deriving Repr, DecidableEq

/-- `AddrRegister::get`. -/
def AddrRegister.get (r : AddrRegister) : Nat :=
  r.value_hi <<< 8 ||| r.value_lo

/-- `AddrRegister::set`. -/
def AddrRegister.set (r : AddrRegister) (data : Nat) : AddrRegister :=
  { r with value_hi := (data >>> 8) % 256, value_lo := data &&& 0xFF }

/-- `AddrRegister::update` (the 14-bit mask in the source is
`0b1111_1111_1111_11` = 0x3FFF). -/
def AddrRegister.update (r : AddrRegister) (data : Nat) : AddrRegister :=
  let r :=
    if r.hi_ptr then { r with value_hi := data % 256 }
    else { r with value_lo := data % 256 }
  let r := if 0x3FFF < r.get then r.set (r.get &&& 0x3FFF) else r
  { r with hi_ptr := !r.hi_ptr }

/-- `AddrRegister::increment`. -/
def AddrRegister.increment (r : AddrRegister) (inc : Nat) : AddrRegister :=
  let lo := r.value_lo
  let r := { r with value_lo := wrappingAdd8 r.value_lo inc }
  let r := if r.value_lo < lo then { r with value_hi := wrappingAdd8 r.value_hi 1 } else r
  if 0x3FFF < r.get then r.set (r.get &&& 0x3FFF) else r

/-- `AddrRegister::reset_latch`. -/
def AddrRegister.reset_latch (r : AddrRegister) : AddrRegister :=
  { r with hi_ptr := true }

/-- `ControlRegister` (registers/control.rs): a bitflags byte. -/
structure ControlRegister where
  bits : Nat
  deriving Repr, DecidableEq

/-- `ControlRegister::vram_addr_increment` (VRAM_ADD_INCREMENT = 0x04). -/
def ControlRegister.vram_addr_increment (r : ControlRegister) : Nat :=
  if r.bits &&& 0x04 = 0x04 then 32 else 1

/-- `ControlRegister::generate_nmi` (GENERATE_NMI = 0x80). -/
def ControlRegister.generate_nmi (r : ControlRegister) : Bool :=
  r.bits &&& 0x80 = 0x80

/-- `ControlRegister::update`. -/
def ControlRegister.update (r : ControlRegister) (data : Nat) : ControlRegister :=
  { r with bits := data % 256 }

/-- `MaskRegister` (registers/mask.rs). -/
structure MaskRegister where
  bits : Nat
  deriving Repr, DecidableEq

/-- `MaskRegister::update`. -/
def MaskRegister.update (r : MaskRegister) (data : Nat) : MaskRegister :=
  { r with bits := data % 256 }

/-- `StatusRegister` (registers/status.rs): a bitflags byte with
SPRITE_OVERFLOW = 0x20, SPRITE_ZERO_HIT = 0x40, VBLANK_STARTED = 0x80. -/
structure StatusRegister where
  bits : Nat
  deriving Repr, DecidableEq

/-- `StatusRegister::set_sprite_zero_hit` (bitflags `set`). -/
def StatusRegister.set_sprite_zero_hit (r : StatusRegister) (flag : Bool) : StatusRegister :=
  if flag then { r with bits := r.bits ||| 0x40 }
  else { r with bits := r.bits &&& 0xBF }   -- !SPRITE_ZERO_HIT

/-- `StatusRegister::set_vblank_started`. -/
def StatusRegister.set_vblank_started (r : StatusRegister) (flag : Bool) : StatusRegister :=
  if flag then { r with bits := r.bits ||| 0x80 }
  else { r with bits := r.bits &&& 0x7F }   -- !VBLANK_STARTED

/-- `StatusRegister::check_vblank_started`. -/
def StatusRegister.check_vblank_started (r : StatusRegister) : Bool :=
  r.bits &&& 0x80 = 0x80

/-- `StatusRegister::reset_vblank_started` (bitflags `remove`). -/
def StatusRegister.reset_vblank_started (r : StatusRegister) : StatusRegister :=
  { r with bits := r.bits &&& 0x7F }   -- !VBLANK_STARTED

/-- `StatusRegister::get_status`. -/
def StatusRegister.get_status (r : StatusRegister) : Nat := r.bits

/-- `ScrollRegister` (registers/scroll.rs). -/
structure ScrollRegister where
  h_scroll : Nat
  v_scroll : Nat
  latch : Bool
  deriving Repr, DecidableEq

/-- `ScrollRegister::write`. -/
def ScrollRegister.write (r : ScrollRegister) (data : Nat) : ScrollRegister :=
  let r :=
    if !r.latch then { r with h_scroll := data % 256 }
    else { r with v_scroll := data % 256 }
  { r with latch := !r.latch }

/-- `ScrollRegister::reset_latch`. -/
def ScrollRegister.reset_latch (r : ScrollRegister) : ScrollRegister :=
  { r with latch := false }

/-- `OamRegisters` (registers/oam.rs): cursor plus 256-byte table. -/
structure OamRegisters where
  oam_addr : Nat
  oam_data : Nat → Nat

/-- `OamRegisters::write_addr`. -/
def OamRegisters.write_addr (o : OamRegisters) (data : Nat) : OamRegisters :=
  { o with oam_addr := data % 256 }

/-- `OamRegisters::write_data`: store at the cursor, advance the cursor
with 8-bit wrap-around. -/
def OamRegisters.write_data (o : OamRegisters) (data : Nat) : OamRegisters :=
  { oam_addr := wrappingAdd8 o.oam_addr 1,
    oam_data := fun i => if i = o.oam_addr % 256 then data % 256 else o.oam_data i }

/-- `OamRegisters::write_dma`: the loop body is exactly `write_data`,
iterated over the 256-byte buffer. -/
def OamRegisters.write_dma (o : OamRegisters) (data : List Nat) : OamRegisters :=
  data.foldl OamRegisters.write_data o

/-- `OamRegisters::get_data`. -/
def OamRegisters.get_data (o : OamRegisters) : Nat :=
  o.oam_data (o.oam_addr % 256) % 256

/-! ## PPU core (src/src/ppu/mod.rs) -/

/-- `NesPPU`.  Byte arrays become functions with a separate length where
Rust indexing may go out of bounds (`chr_rom` is a `Vec`). -/
structure NesPPU where
  chr_rom : Nat → Nat
  chr_len : Nat
  mirroring : Mirroring
  vram : Nat → Nat
  oam_addr : Nat
  oam_data : Nat → Nat
  oam : OamRegisters
  palette_table : Nat → Nat
  internal_data_buf : Nat
  addr : AddrRegister
  ctrl : ControlRegister
  mask : MaskRegister
  status : StatusRegister
  scroll : ScrollRegister
  scanline : Nat
  cycles : Nat
  nmi_interrupt : Option Nat

/-- `NesPPU::increment_vram_addr`. -/
def NesPPU.increment_vram_addr (p : NesPPU) : NesPPU :=
  { p with addr := p.addr.increment p.ctrl.vram_addr_increment }

/-- `NesPPU::mirror_vram_addr` (the mask in the source is
`0b1011_1111_1111_11` = 0x2FFF). -/
def NesPPU.mirror_vram_addr (p : NesPPU) (addr : Nat) : Nat :=
  let mirrored_vram := addr &&& 0x2FFF
  let vram_index := mirrored_vram - 0x2000
  let name_table := vram_index / 0x400
  match p.mirroring, name_table with
  | .VERTICAL, 2 | .VERTICAL, 3 => vram_index - 0x800
  | .HORIZONTAL, 2 => vram_index - 0x400
  | .HORIZONTAL, 1 => vram_index - 0x400
  | .HORIZONTAL, 3 => vram_index - 0x800
  | _, _ => vram_index

/-- `NesPPU::tick`: accumulate dots; at 341 wrap and advance the
scanline; entering scanline 241 raises vblank (and latches an NMI when
enabled); reaching scanline 262 resets the frame and returns `true`. -/
def NesPPU.tick (p : NesPPU) (cycles : Nat) : NesPPU × Bool :=
  let p := { p with cycles := p.cycles + cycles }
  if 341 ≤ p.cycles then
    let p := { p with cycles := p.cycles - 341, scanline := p.scanline + 1 }
    let p : NesPPU :=
      if p.scanline = 241 then
        let p := { p with status := p.status.set_vblank_started true }
        let p := { p with status := p.status.set_sprite_zero_hit false }
        if p.ctrl.generate_nmi then { p with nmi_interrupt := some 1 } else p
      else p
    if 262 ≤ p.scanline then
      ({ p with scanline := 0,
                nmi_interrupt := none,
                status := (p.status.set_sprite_zero_hit false).reset_vblank_started }, true)
    else (p, false)
  else (p, false)

/-- `NesPPU::poll_nmi_interrupt` (`Option::take`). -/
def NesPPU.poll_nmi_interrupt (p : NesPPU) : Option Nat × NesPPU :=
  (p.nmi_interrupt, { p with nmi_interrupt := none })

/-- `NesPPU::write_to_ppu_addr` (`PPU` trait impl). -/
def NesPPU.write_to_ppu_addr (p : NesPPU) (value : Nat) : NesPPU :=
  { p with addr := p.addr.update value }

/-- `NesPPU::write_to_ctrl`: latches an NMI when the NMI-enable bit turns
on while vblank is already started. -/
def NesPPU.write_to_ctrl (p : NesPPU) (value : Nat) : NesPPU :=
  let before_nmi_status := p.ctrl.generate_nmi
  let p := { p with ctrl := p.ctrl.update value }
  if !before_nmi_status ∧ p.ctrl.generate_nmi ∧ p.status.check_vblank_started then
    { p with nmi_interrupt := some 1 }
  else p

/-- `NesPPU::read_data`: buffered VRAM/CHR reads, immediate palette
reads; panics (modelled as `Except.error`) on the unexpected ranges. -/
def NesPPU.read_data (p : NesPPU) : Except Fault (Nat × NesPPU) :=
  let addr := p.addr.get
  let p := p.increment_vram_addr
  if addr ≤ 0x1FFF then
    if addr < p.chr_len then
      let result := p.internal_data_buf
      .ok (result % 256, { p with internal_data_buf := p.chr_rom addr % 256 })
    else .error (.ppuIndexOutOfRange addr)
  else if addr ≤ 0x2FFF then
    let result := p.internal_data_buf
    let idx := p.mirror_vram_addr addr
    if idx < 2048 then
      .ok (result % 256, { p with internal_data_buf := p.vram idx % 256 })
    else .error (.ppuIndexOutOfRange addr)
  else if addr ≤ 0x3EFF then .error (.ppuUnexpectedAddr addr)
  else if addr = 0x3F10 ∨ addr = 0x3F14 ∨ addr = 0x3F18 ∨ addr = 0x3F1C then
    let add_mirror := addr - 0x10
    .ok (p.palette_table (add_mirror - 0x3F00) % 256, p)
  else if addr ≤ 0x3FFF then
    if addr - 0x3F00 < 32 then
      .ok (p.palette_table (addr - 0x3F00) % 256, p)
    else .error (.ppuIndexOutOfRange addr)
  else .error (.ppuUnexpectedAddr addr)

/-- `NesPPU::write_to_mask`. -/
def NesPPU.write_to_mask (p : NesPPU) (value : Nat) : NesPPU :=
  { p with mask := p.mask.update value }

/-- `NesPPU::read_status`: returns the status byte, then clears vblank
and resets the address/scroll latches. -/
def NesPPU.read_status (p : NesPPU) : Nat × NesPPU :=
  let data := p.status.get_status
  let p := { p with status := p.status.reset_vblank_started }
  let p := { p with addr := p.addr.reset_latch }
  let p := { p with scroll := p.scroll.reset_latch }
  (data % 256, p)

/-- `NesPPU::write_to_scroll`. -/
def NesPPU.write_to_scroll (p : NesPPU) (value : Nat) : NesPPU :=
  { p with scroll := p.scroll.write value }

/-- `NesPPU::write_to_oam_addr` (keeps the `oam_addr` mirror field in
sync, as the source does). -/
def NesPPU.write_to_oam_addr (p : NesPPU) (value : Nat) : NesPPU :=
  let o := p.oam.write_addr value
  { p with oam := o, oam_addr := o.oam_addr }

/-- `NesPPU::write_to_oam_data`. -/
def NesPPU.write_to_oam_data (p : NesPPU) (value : Nat) : NesPPU :=
  let o := p.oam.write_data value
  { p with oam := o, oam_data := o.oam_data }

/-- `NesPPU::read_oam_data`. -/
def NesPPU.read_oam_data (p : NesPPU) : Nat :=
  p.oam.get_data

/-- `NesPPU::write_oam_dma`. -/
def NesPPU.write_oam_dma (p : NesPPU) (data : List Nat) : NesPPU :=
  let o := p.oam.write_dma data
  { p with oam := o, oam_addr := o.oam_addr, oam_data := o.oam_data }

/-- `NesPPU::write_to_data`: write through the address register into
CHR space (ignored with a log line), VRAM, or the palette table, then
auto-increment. -/
def NesPPU.write_to_data (p : NesPPU) (value : Nat) : Except Fault NesPPU :=
  let addr := p.addr.get
  let write :
      Except Fault NesPPU :=
    if addr ≤ 0x1FFF then
      .ok p   -- `println!("attempt to write to CHR ROM space ...")`, no write
    else if addr ≤ 0x2FFF then
      let idx := p.mirror_vram_addr addr
      if idx < 2048 then
        .ok { p with vram := fun i => if i = idx then value % 256 else p.vram i }
      else .error (.ppuIndexOutOfRange addr)
    else if addr ≤ 0x3EFF then .error (.ppuUnexpectedAddr addr)
    else if addr = 0x3F10 ∨ addr = 0x3F14 ∨ addr = 0x3F18 ∨ addr = 0x3F1C then
      let addr_mirror := addr - 0x10
      .ok { p with palette_table :=
              fun i => if i = addr_mirror - 0x3F00 then value % 256 else p.palette_table i }
    else if addr ≤ 0x3FFF then
      if addr - 0x3F00 < 32 then
        .ok { p with palette_table :=
                fun i => if i = addr - 0x3F00 then value % 256 else p.palette_table i }
      else .error (.ppuIndexOutOfRange addr)
    else .error (.ppuUnexpectedAddr addr)
  do pure (← write).increment_vram_addr

/-! ## Joypad

src/src/main.rs declares `pub mod joypad;` and src/src/bus.rs uses
`crate::joypad::JoyPad`, but joypad.rs itself is not among the source
files.  Modelled from the spec: the spec only calls 0x4016 "the
input-device register" backed by "one input-device latch", so the joypad
is modelled as a single byte latch whose read returns the latch. -/

structure JoyPad where
  latch : Nat

/-- Modelled from the spec: reading the input-device register. -/
def JoyPad.read (j : JoyPad) : Nat × JoyPad := (j.latch % 256, j)

/-- Modelled from the spec: writing the input-device register. -/
def JoyPad.write (_j : JoyPad) (data : Nat) : JoyPad := { latch := data % 256 }

/-! ## Bus (src/src/bus.rs) -/

def RAM : Nat := 0x0000
def RAM_MIRRORS_END : Nat := 0x1FFF
def PPU_REGISTERS : Nat := 0x2000
def PPU_REGISTERS_MIRRORS_END : Nat := 0x3FFF

/-- `Bus`.  The `gameloop_callback` closure receives read access to the
PPU and mutable access to the joypad, so it is modelled as a function
producing the new joypad state. -/
structure Bus where
  cpu_vram : Nat → Nat
  prg_rom : Nat → Nat
  prg_len : Nat
  ppu : NesPPU
  cycles : Nat
  gameloop_callback : NesPPU → JoyPad → JoyPad
  joypad1 : JoyPad

/-- `Bus::read_prg_rom`: 16KB images are mirrored; out-of-bounds
indexing is a Rust panic, modelled as an error. -/
def Bus.read_prg_rom (b : Bus) (addr : Nat) : Except Fault Nat :=
  let addr := addr - 0x8000
  let addr := if b.prg_len = 0x4000 ∧ 0x4000 ≤ addr then addr % 0x4000 else addr
  if addr < b.prg_len then .ok (b.prg_rom addr % 256) else .error (.prgRomIndexOutOfRange addr)

/-- `Bus::tick`: add the CPU cycles, forward `cycles * 3` dots to the
PPU (u8 arithmetic), and run the game-loop callback on the rising edge
of the PPU's pending-NMI flag. -/
def Bus.tick (b : Bus) (cycles : Nat) : Bus :=
  let b := { b with cycles := b.cycles + cycles % 256 }
  let nmi_before := b.ppu.nmi_interrupt.isSome
  let ppu := (b.ppu.tick ((cycles % 256) * 3 % 256)).1
  let b := { b with ppu := ppu }
  let nmi_after := b.ppu.nmi_interrupt.isSome
  if !nmi_before ∧ nmi_after then
    { b with joypad1 := b.gameloop_callback b.ppu b.joypad1 }
  else b

/-- `Bus::poll_nmi_status`. -/
def Bus.poll_nmi_status (b : Bus) : Option Nat × Bus :=
  let (r, ppu) := b.ppu.poll_nmi_interrupt
  (r, { b with ppu := ppu })

/-- `Mem::mem_read` for `Bus`.  Reads of the PPU data/status/OAM
registers mutate PPU state, so the new bus is returned; the
`0x2008..=0x3FFF` arm recursively dispatches on the mirrored-down
address (which lands in `0x2000..=0x2007`, below the caller's address,
so the recursion terminates). -/
def Bus.mem_read (b : Bus) (addr : Nat) : Except Fault (Nat × Bus) :=
  if addr ≤ RAM_MIRRORS_END then
    let mirror_down_addr := addr &&& 0x07FF   -- 0b0000_0111_1111_1111
    .ok (b.cpu_vram mirror_down_addr % 256, b)
  else if addr = 0x2000 ∨ addr = 0x2001 ∨ addr = 0x2003 ∨ addr = 0x2005 ∨
          addr = 0x2006 ∨ addr = 0x4014 then
    .ok (0, b)
  else if addr = 0x2002 then
    let (v, ppu) := b.ppu.read_status
    .ok (v, { b with ppu := ppu })
  else if addr = 0x2004 then
    .ok (b.ppu.read_oam_data, b)
  else if addr = 0x2007 then do
    let (v, ppu) ← b.ppu.read_data
    .ok (v, { b with ppu := ppu })
  else if hmir : 0x2008 ≤ addr ∧ addr ≤ PPU_REGISTERS_MIRRORS_END then
    let mirror_down_addr := addr &&& 0x2007   -- 0b00100000_00000111
    b.mem_read mirror_down_addr
  else if 0x4000 ≤ addr ∧ addr ≤ 0x4015 then
    .ok (0, b)
  else if addr = 0x4016 then
    let vj := b.joypad1.read
    .ok (vj.1, { b with joypad1 := vj.2 })
  else if addr = 0x4017 then
    .ok (0, b)
  else if 0x8000 ≤ addr ∧ addr ≤ 0xFFFF then do
    let v ← b.read_prg_rom addr
    .ok (v, b)
  else
    .ok (0, b)   -- `println!("Ignoring mem access ...")`, returns 0
termination_by addr
decreasing_by
  have h : addr &&& 0x2007 ≤ 0x2007 := @Nat.and_le_right addr 0x2007
  omega

/-- The OAM DMA buffer fill of `Bus::mem_write`'s `0x4014` arm:
`for i in 0..256 { buffer[i] = self.mem_read(hi + i) }`, with the read
side effects threaded through the bus. -/
def Bus.dmaFill (b : Bus) (hi : Nat) (i : Nat) : Nat → Except Fault (List Nat × Bus)
  | 0 => .ok ([], b)
  | n + 1 => do
    let (v, b) ← b.mem_read (hi + i)
    let (rest, b) ← b.dmaFill hi (i + 1) n
    .ok (v :: rest, b)

/-- Modelled from the spec: `Bus::mem_write` calls
`self.ppu.write_to_status(data)` for address 0x2002, but no
`write_to_status` method exists anywhere in the sources (the `PPU` trait
in src/src/ppu/mod.rs does not declare one).  The spec's register table
gives the Status register no CPU-write effect, so the call is modelled
as a no-op. -/
def NesPPU.write_to_status (p : NesPPU) (_data : Nat) : NesPPU := p

/-- `Mem::mem_write` for `Bus`.  The ROM arm panics in Rust; the
`0x2008..=0x3FFF` arm dispatches recursively on the mirrored-down
address; the `0x4014` arm performs the 256-byte OAM DMA. -/
def Bus.mem_write (b : Bus) (addr data : Nat) : Except Fault Bus :=
  if addr ≤ RAM_MIRRORS_END then
    let mirror_down_addr := addr &&& 0x07FF
    .ok { b with cpu_vram :=
            fun i => if i = mirror_down_addr then data % 256 else b.cpu_vram i }
  else if addr = 0x2000 then
    .ok { b with ppu := b.ppu.write_to_ctrl data }
  else if addr = 0x2001 then
    .ok { b with ppu := b.ppu.write_to_mask data }
  else if addr = 0x2002 then
    .ok { b with ppu := b.ppu.write_to_status data }
  else if addr = 0x2003 then
    .ok { b with ppu := b.ppu.write_to_oam_addr data }
  else if addr = 0x2004 then
    .ok { b with ppu := b.ppu.write_to_oam_data data }
  else if addr = 0x2005 then
    .ok { b with ppu := b.ppu.write_to_scroll data }
  else if addr = 0x2006 then
    .ok { b with ppu := b.ppu.write_to_ppu_addr data }
  else if addr = 0x2007 then do
    let ppu ← b.ppu.write_to_data data
    .ok { b with ppu := ppu }
  else if (0x4000 ≤ addr ∧ addr ≤ 0x4013) ∨ addr = 0x4015 then
    .ok b   -- ignoring APU
  else if addr = 0x4016 then
    .ok { b with joypad1 := b.joypad1.write data }
  else if addr = 0x4017 then
    .ok b   -- ignoring joypad 2
  else if addr = 0x4014 then do
    let hi := (data % 256) <<< 8
    let (buffer, b) ← b.dmaFill hi 0 256
    .ok { b with ppu := b.ppu.write_oam_dma buffer }
  else if hmir : 0x2008 ≤ addr ∧ addr ≤ PPU_REGISTERS_MIRRORS_END then
    let mirror_down_addr := addr &&& 0x2007   -- 0b0010_0000_0000_0111
    b.mem_write mirror_down_addr data
  else if 0x8000 ≤ addr ∧ addr ≤ 0xFFFF then
    .error (.romWriteAttempt addr)
  else
    .ok b   -- `println!("Ignoring mem write-access ...")`
termination_by addr
decreasing_by
  have h : addr &&& 0x2007 ≤ 0x2007 := @Nat.and_le_right addr 0x2007
  omega

/-! ## Helper lemmas -/

/-- Reads of u8 cells are always bytes. -/
theorem mem_read_lt (c : CPU) (a : Nat) : c.mem_read a < 256 :=
  Nat.mod_lt _ (by norm_num)

/-- Reduction of an `Except` bind on a success value. -/
theorem except_bind_ok {e a b : Type} (x : a) (f : a → Except e b) :
    (Except.ok x : Except e a) >>= f = f x := rfl

/-- Reduction of an `Except` bind on an error value. -/
theorem except_bind_err {e a b : Type} (err : e) (f : a → Except e b) :
    (Except.error err : Except e a) >>= f = Except.error err := rfl

/-- Reduction of an `Except` map on a success value. -/
theorem except_map_ok {e a b : Type} (x : a) (f : a → b) :
    (Except.ok x : Except e a).map f = Except.ok (f x) := rfl

/-- After `update_zero_and_negative_flags` ran on result 0, the Zero bit
is set, whatever the previous status byte was. -/
theorem flag_zero_bit_set (t : Nat) : ((t ||| 2) &&& 127) &&& 2 = 2 := by
  apply Nat.eq_of_testBit_eq; intro i
  simp only [Nat.testBit_and, Nat.testBit_or]
  rcases i with _ | _ | i <;>
    simp [Nat.testBit_add_one, Nat.zero_testBit]

/-- After `update_zero_and_negative_flags` ran on result 0, the Negative
bit is clear, whatever the previous status byte was. -/
theorem flag_neg_bit_clear (t : Nat) : ((t ||| 2) &&& 127) &&& 128 = 0 := by
  apply Nat.eq_of_testBit_eq; intro i
  simp only [Nat.testBit_and, Nat.testBit_or, Nat.zero_testBit]
  rcases i with _ | _ | _ | _ | _ | _ | _ | _ | i <;>
    simp [Nat.testBit_add_one, Nat.zero_testBit]

/-- Masking with 0xFF is reduction mod 256. -/
theorem land_255_eq_mod (x : Nat) : x &&& 255 = x % 256 := by
  have h := Nat.and_pow_two_sub_one_eq_mod x 8
  norm_num at h
  exact h

/-- Distributing a right shift over a bitwise or. -/
theorem lor_shiftRight (x y n : Nat) : (x ||| y) >>> n = (x >>> n) ||| (y >>> n) := by
  apply Nat.eq_of_testBit_eq
  intro i
  simp [Nat.testBit_shiftRight, Nat.testBit_or]

/-- Distributing a left shift over a bitwise and. -/
theorem land_shiftLeft (x y n : Nat) : (x &&& y) <<< n = (x <<< n) &&& (y <<< n) := by
  apply Nat.eq_of_testBit_eq
  intro i
  simp only [Nat.testBit_shiftLeft, Nat.testBit_and]
  by_cases h : n ≤ i <;> simp [h]

/-- A byte value has no bits in the high-byte mask. -/
theorem land_65280_of_lt (l : Nat) (hl : l < 256) : l &&& 65280 = 0 := by
  apply Nat.eq_of_testBit_eq
  intro i
  simp only [Nat.testBit_and, Nat.zero_testBit]
  by_cases h : 8 ≤ i
  · have h2 : l < 2 ^ i := by
      calc l < 256 := hl
      _ = 2 ^ 8 := by norm_num
      _ ≤ 2 ^ i := Nat.pow_le_pow_right (by norm_num) h
    simp [Nat.testBit_lt_two_pow h2]
  · have h3 : (65280 : Nat).testBit i = false := by
      interval_cases i <;> decide
    simp [h3]

/-- A high byte shifted left and a low byte or-ed together is the
little-endian value `hi * 256 + lo`. -/
theorem shiftLeft_lor_eq (hi lo : Nat) (hl : lo < 256) :
    hi <<< 8 ||| lo = hi * 256 + lo := by
  have hsh : hi <<< 8 = hi * 256 := by
    rw [Nat.shiftLeft_eq]; try norm_num
  have hmod : (hi <<< 8 ||| lo) % 256 = lo := by
    rw [← land_255_eq_mod]
    rw [Nat.and_comm, Nat.and_or_distrib_left, Nat.and_comm 255 (hi <<< 8),
        Nat.and_comm 255 lo, land_255_eq_mod, land_255_eq_mod, hsh,
        Nat.mul_mod_left, Nat.mod_eq_of_lt hl]
    simp
  have hdiv : (hi <<< 8 ||| lo) >>> 8 = hi := by
    rw [lor_shiftRight]
    have h1 : hi <<< 8 >>> 8 = hi := by
      rw [hsh, Nat.shiftRight_eq_div_pow]
      norm_num
    have h2 : lo >>> 8 = 0 := by
      rw [Nat.shiftRight_eq_div_pow]
      norm_num
      omega
    rw [h1, h2]
    simp
  have hdm := Nat.div_add_mod (hi <<< 8 ||| lo) 256
  rw [Nat.shiftRight_eq_div_pow] at hdiv
  norm_num at hdiv
  omega

/-- `mem_read_u16` is the arithmetic little-endian read. -/
theorem mem_read_u16_eq (c : CPU) (pos : Nat) :
    c.mem_read_u16 pos = c.mem_read (pos + 1) * 256 + c.mem_read pos := by
  unfold CPU.mem_read_u16
  exact shiftLeft_lor_eq _ _ (mem_read_lt c pos)

/-- Masking a two-byte value with 0xFF00 keeps exactly the high byte. -/
theorem land_65280_eq (hi lo : Nat) (hhi : hi < 256) (hlo : lo < 256) :
    (hi <<< 8 ||| lo) &&& 65280 = hi * 256 := by
  have h65280 : (65280 : Nat) = 255 <<< 8 := by decide
  rw [Nat.and_comm, Nat.and_or_distrib_left, Nat.and_comm _ (hi <<< 8),
      Nat.and_comm _ lo, land_65280_of_lt lo hlo, h65280, ← land_shiftLeft,
      land_255_eq_mod, Nat.mod_eq_of_lt hhi]
  rw [Nat.shiftLeft_eq]
  try norm_num

/-! ## Concrete machine states used by witnesses and counterexamples -/

/-- Program memory for the Indirect-JMP page-wrap example of the spec:
a pointer 0x30FF at the program counter, target low byte 0x80 at 0x30FF,
0x40 at the start of the same page (0x3000), and 0x31 at 0x3100 (the
byte a corrected implementation would read instead). -/
def memJ : Nat → Nat := fun a =>
  if a = 0x0208 then 0xFF
  else if a = 0x0209 then 0x30
  else if a = 0x30FF then 0x80
  else if a = 0x3000 then 0x40
  else if a = 0x3100 then 0x31
  else 0

def cpuJ : CPU :=
  { register_a := 0, register_x := 0, register_y := 0, status := 0x24,
    program_counter := 0x0208, stack_pointer := 0xFD, mem := memJ }

/-- Program memory for the non-wrapping Indirect-JMP case: pointer
0x3010, target bytes 0x34/0x12 at 0x3010/0x3011. -/
def memK : Nat → Nat := fun a =>
  if a = 0x0208 then 0x10
  else if a = 0x0209 then 0x30
  else if a = 0x3010 then 0x34
  else if a = 0x3011 then 0x12
  else 0

def cpuK : CPU :=
  { register_a := 0, register_x := 0, register_y := 0, status := 0x24,
    program_counter := 0x0208, stack_pointer := 0xFD, mem := memK }

/-- A CPU with arbitrary but fixed contents, used where only the shape
of a fault matters. -/
def cpu9 : CPU :=
  { register_a := 0, register_x := 0, register_y := 0, status := 0x24,
    program_counter := 0x0600, stack_pointer := 0xFD, mem := fun _ => 0 }

/-- A quiescent PPU state. -/
def ppu0 : NesPPU :=
  { chr_rom := fun _ => 0, chr_len := 0x2000, mirroring := .HORIZONTAL,
    vram := fun _ => 0, oam_addr := 0, oam_data := fun _ => 0,
    oam := ⟨0, fun _ => 0⟩, palette_table := fun _ => 0,
    internal_data_buf := 0, addr := ⟨0, 0, true⟩, ctrl := ⟨0⟩, mask := ⟨0⟩,
    status := ⟨0⟩, scroll := ⟨0, 0, false⟩, scanline := 0, cycles := 0,
    nmi_interrupt := none }

/-- A quiescent bus over `ppu0` with zeroed RAM and a 32KB zero ROM. -/
def bus0 : Bus :=
  { cpu_vram := fun _ => 0, prg_rom := fun _ => 0, prg_len := 0x8000,
    ppu := ppu0, cycles := 0, gameloop_callback := fun _ j => j,
    joypad1 := ⟨0⟩ }

/-! ## C3: Indirect-JMP page-wrap bug -/

/-- C3.  Resolving the Indirect-JMP addressing mode reads a two-byte
pointer at the program counter.  When the pointer's low byte is 0xFF the
jump target's low byte comes from the pointer address and its high byte
from the start of the same 256-byte page (`pointer - 255`, which equals
`pointer &&& 0xFF00` there); otherwise the target is read little-endian
from the two consecutive addresses `pointer` and `pointer + 1`. -/
theorem indirect_jmp_page_wrap (c : CPU) (a : Nat) :
    (c.mem_read_u16 c.program_counter % 256 = 255 →
      c.get_absolute_address AddressingMode.Indirect_jmp a =
        Except.ok (c.mem_read (c.mem_read_u16 c.program_counter - 255) * 256 +
                   c.mem_read (c.mem_read_u16 c.program_counter)))
  ∧ (c.mem_read_u16 c.program_counter % 256 ≠ 255 →
      c.get_absolute_address AddressingMode.Indirect_jmp a =
        Except.ok (c.mem_read (c.mem_read_u16 c.program_counter + 1) * 256 +
                   c.mem_read (c.mem_read_u16 c.program_counter))) := by
  have hlo := mem_read_lt c c.program_counter
  have hhi := mem_read_lt c (c.program_counter + 1)
  have hcond : c.mem_read_u16 c.program_counter &&& 255 =
      c.mem_read_u16 c.program_counter % 256 :=
    land_255_eq_mod _
  have hval := mem_read_u16_eq c c.program_counter
  constructor
  · intro h
    show (if c.mem_read_u16 c.program_counter &&& 0x00FF = 0x00FF then _ else _) = _
    rw [hcond, if_pos h]
    have hmask : c.mem_read_u16 c.program_counter &&& 0xFF00 =
        c.mem_read_u16 c.program_counter - 255 := by
      unfold CPU.mem_read_u16
      rw [land_65280_eq _ _ hhi hlo]
      have : (c.mem_read (c.program_counter + 1) <<< 8 |||
          c.mem_read c.program_counter) % 256 = 255 := by
        unfold CPU.mem_read_u16 at h; exact h
      rw [shiftLeft_lor_eq _ _ hlo] at this ⊢
      omega
    rw [hmask]
    rw [shiftLeft_lor_eq _ _ (mem_read_lt c _)]
  · intro h
    show (if c.mem_read_u16 c.program_counter &&& 0x00FF = 0x00FF then _ else _) = _
    rw [hcond, if_neg h]
    rw [mem_read_u16_eq]

/-- Witness for C3: on the spec's own example (pointer bytes 0x30FF at
the program counter, target low byte 0x80 at 0x30FF, 0x40 at 0x3000),
the buggy resolution jumps to 0x4080; a non-wrapping pointer 0x3010
resolves to the consecutive little-endian bytes 0x1234. -/
theorem indirect_jmp_page_wrap_witness :
    CPU.get_absolute_address cpuJ AddressingMode.Indirect_jmp 0 = Except.ok 0x4080
  ∧ CPU.get_absolute_address cpuK AddressingMode.Indirect_jmp 0 = Except.ok 0x1234 := by
  constructor
  · have h := (indirect_jmp_page_wrap cpuJ 0).1 (by decide)
    exact h.trans (by rfl)
  · have h := (indirect_jmp_page_wrap cpuK 0).2 (by decide)
    exact h.trans (by rfl)

/-! ## C9: fatal conditions -/

/-- C9.  In the embedding the Rust `panic!` sites are represented as
`Except.error` values naming the offending address or mode: resolving
`NoneAddressing` faults with `InvalidAddressingModeUse`, and a write
into ROM space faults with `ROMWriteAttempt` carrying the address.  (In
the Rust source itself both sites execute `panic!`, aborting the
process; `UnknownOpcode` is unreachable because the opcode table covers
all 256 byte values.) -/
theorem fatal_paths_fault_values :
    CPU.get_absolute_address cpu9 AddressingMode.NoneAddressing 0 =
      Except.error Fault.invalidAddressingModeUse
  ∧ Bus.mem_write bus0 0x8000 0x55 = Except.error (Fault.romWriteAttempt 0x8000) := by
  constructor
  · rfl
  · rw [Bus.mem_write]
    norm_num [RAM_MIRRORS_END, PPU_REGISTERS_MIRRORS_END]

/-! ## C10: the AXS instruction always clears X -/

/-- C10.  `CPU::axs` computes `tmp.wrapping_sub(tmp)`, so whenever it
resolves its operand successfully the new X register is 0, the Zero
flag is set and the Negative flag is cleared — independently of the
accumulator, X, and the memory operand.  (Opcode 0xCB dispatches to
`axs` with the Immediate mode.) -/
theorem axs_zeroes_x (c : CPU) (mode : AddressingMode) (c' : CPU)
    (h : c.axs mode = Except.ok c') :
    c'.register_x = 0 ∧ c'.status &&& ZERO_FLAG = ZERO_FLAG ∧
      c'.status &&& NEGATIVE_FLAG = 0 := by
  unfold CPU.axs at h
  cases hop : c.get_operand_address mode with
  | error e =>
    rw [hop] at h
    simp only [except_bind_err] at h
    exact absurd h (by simp)
  | ok addr =>
    rw [hop] at h
    have hz : wrappingSub8 (c.register_x &&& c.register_a)
        (c.register_x &&& c.register_a) = 0 := by
      unfold wrappingSub8; omega
    simp only [except_bind_ok, hz, CPU.update_zero_and_negative_flags,
      pure, Except.pure] at h
    norm_num at h
    subst h
    refine ⟨rfl, ?_, ?_⟩ <;>
      simp only [apply_ite CPU.status, ZERO_FLAG, NEGATIVE_FLAG] <;>
      by_cases hcy : c.mem_read addr ≤ c.register_x &&& c.register_a <;>
      simp only [hcy, if_true, if_false, ite_true, ite_false] <;>
      first
        | exact flag_zero_bit_set _
        | exact flag_neg_bit_clear _

/-- A machine for exercising AXS: accumulator 0x5A, X 0x37, and an
Immediate operand byte 0x99 at the program counter. -/
def cpuAxs : CPU :=
  { register_a := 0x5A, register_x := 0x37, register_y := 0, status := 0x24,
    program_counter := 0x0600, stack_pointer := 0xFD,
    mem := fun a => if a = 0x0600 then 0x99 else 0 }

/-- Witness for C10 at a concrete machine: accumulator 0x5A, X 0x37,
Immediate operand 0x99. -/
theorem axs_zeroes_x_witness :
    (CPU.axs cpuAxs AddressingMode.Immediate).map
        (fun c => (c.register_x, c.status &&& ZERO_FLAG, c.status &&& NEGATIVE_FLAG)) =
      Except.ok (0, ZERO_FLAG, 0) := by
  have h := axs_zeroes_x cpuAxs AddressingMode.Immediate
    ((CPU.axs cpuAxs AddressingMode.Immediate).toOption.getD cpu9) rfl
  obtain ⟨h1, h2, h3⟩ := h
  show _ = _
  rw [show CPU.axs cpuAxs AddressingMode.Immediate =
      Except.ok ((CPU.axs cpuAxs AddressingMode.Immediate).toOption.getD cpu9) from rfl]
  simp [Except.map, h1, h2, h3]

/-! ## C4: ADC immediate flag cases -/

/-- C4.  Executing ADC with the Immediate addressing mode: operand 0x10
on accumulator 0x01 with carry clear gives accumulator 0x11 with carry
clear; operand 0xFF on accumulator 0x02 with carry clear gives 0x01 with
carry set; operand 0x7F on accumulator 0x01 with carry clear gives 0x80
with Overflow and Negative set and Carry clear. -/
theorem adc_immediate_cases :
    (∀ c : CPU, c.status < 256 → c.register_a = 0x01 →
      c.status &&& CARRY_FLAG = 0 → c.mem_read c.program_counter = 0x10 →
      (c.adc AddressingMode.Immediate).map
          (fun d => (d.register_a, d.status &&& CARRY_FLAG)) =
        Except.ok (0x11, 0))
  ∧ (∀ c : CPU, c.status < 256 → c.register_a = 0x02 →
      c.status &&& CARRY_FLAG = 0 → c.mem_read c.program_counter = 0xFF →
      (c.adc AddressingMode.Immediate).map
          (fun d => (d.register_a, d.status &&& CARRY_FLAG)) =
        Except.ok (0x01, CARRY_FLAG))
  ∧ (∀ c : CPU, c.status < 256 → c.register_a = 0x01 →
      c.status &&& CARRY_FLAG = 0 → c.mem_read c.program_counter = 0x7F →
      (c.adc AddressingMode.Immediate).map
          (fun d => (d.register_a, d.status &&& CARRY_FLAG,
            d.status &&& OVERFLOW_FLAG, d.status &&& NEGATIVE_FLAG)) =
        Except.ok (0x80, 0, OVERFLOW_FLAG, NEGATIVE_FLAG)) := by
  refine ⟨?_, ?_, ?_⟩ <;>
  · intro c hs ha hc hm
    rw [show c.adc AddressingMode.Immediate =
        Except.ok (c.add_to_register_a (c.mem_read c.program_counter)) from rfl,
      hm, except_map_ok]
    unfold CPU.add_to_register_a CPU.set_register_a CPU.update_zero_and_negative_flags
    rw [ha]
    simp only [Except.ok.injEq, apply_ite CPU.register_a, apply_ite CPU.status]
    generalize c.status = s at hs hc ⊢
    revert s
    decide

/-- A machine for the first ADC scenario: accumulator 0x01, carry clear,
Immediate operand 0x10. -/
def cpuAdc1 : CPU :=
  { register_a := 0x01, register_x := 0, register_y := 0, status := 0x24,
    program_counter := 0x0600, stack_pointer := 0xFD,
    mem := fun a => if a = 0x0600 then 0x10 else 0 }

/-- A machine for the second ADC scenario: accumulator 0x02, operand 0xFF. -/
def cpuAdc2 : CPU :=
  { register_a := 0x02, register_x := 0, register_y := 0, status := 0x24,
    program_counter := 0x0600, stack_pointer := 0xFD,
    mem := fun a => if a = 0x0600 then 0xFF else 0 }

/-- A machine for the third ADC scenario: accumulator 0x01, operand 0x7F. -/
def cpuAdc3 : CPU :=
  { register_a := 0x01, register_x := 0, register_y := 0, status := 0x24,
    program_counter := 0x0600, stack_pointer := 0xFD,
    mem := fun a => if a = 0x0600 then 0x7F else 0 }

/-- Witness for C4 at the three concrete machines. -/
theorem adc_immediate_cases_witness :
    (cpuAdc1.adc AddressingMode.Immediate).map
        (fun d => (d.register_a, d.status &&& CARRY_FLAG)) = Except.ok (0x11, 0)
  ∧ (cpuAdc2.adc AddressingMode.Immediate).map
        (fun d => (d.register_a, d.status &&& CARRY_FLAG)) = Except.ok (0x01, CARRY_FLAG)
  ∧ (cpuAdc3.adc AddressingMode.Immediate).map
        (fun d => (d.register_a, d.status &&& CARRY_FLAG,
          d.status &&& OVERFLOW_FLAG, d.status &&& NEGATIVE_FLAG)) =
      Except.ok (0x80, 0, OVERFLOW_FLAG, NEGATIVE_FLAG) :=
  ⟨adc_immediate_cases.1 cpuAdc1 (by decide) rfl (by decide) (by decide),
   adc_immediate_cases.2.1 cpuAdc2 (by decide) rfl (by decide) (by decide),
   adc_immediate_cases.2.2 cpuAdc3 (by decide) rfl (by decide) (by decide)⟩

/-! ## C7: flag updates, and the memory ROL/ROR exception -/

/-- C7 (amended).  `update_zero_and_negative_flags` — used by every
flag-updating instruction except the memory forms of ROL and ROR — sets
Zero exactly when the result byte is 0 and Negative exactly when bit 7
of the result is 1.  The memory forms of ROL and ROR, however, finish
with `update_negative_flags`: they set Negative from bit 7 of the
written byte but leave the Zero flag unchanged. -/
theorem rol_ror_memory_flag_update :
    (∀ (c : CPU) (mode : AddressingMode) (v : Nat) (c' : CPU), c.status < 256 →
      c.rol mode = Except.ok (v, c') →
      v < 256 ∧ c'.status &&& ZERO_FLAG = c.status &&& ZERO_FLAG ∧
        c'.status &&& NEGATIVE_FLAG = (if v >>> 7 = 1 then NEGATIVE_FLAG else 0))
  ∧ (∀ (c : CPU) (mode : AddressingMode) (v : Nat) (c' : CPU), c.status < 256 →
      c.ror mode = Except.ok (v, c') →
      v < 256 ∧ c'.status &&& ZERO_FLAG = c.status &&& ZERO_FLAG ∧
        c'.status &&& NEGATIVE_FLAG = (if v >>> 7 = 1 then NEGATIVE_FLAG else 0))
  ∧ (∀ (c : CPU) (r : Nat), c.status < 256 → r < 256 →
      (c.update_zero_and_negative_flags r).status &&& ZERO_FLAG =
        (if r = 0 then ZERO_FLAG else 0) ∧
      (c.update_zero_and_negative_flags r).status &&& NEGATIVE_FLAG =
        (if r &&& 0x80 ≠ 0 then NEGATIVE_FLAG else 0)) := by
  refine ⟨?_, ?_, ?_⟩
  · intro c mode v c' hs h
    unfold CPU.rol at h
    cases hop : c.get_operand_address mode with
    | error e => rw [hop] at h; exact absurd h (by simp [except_bind_err])
    | ok addr =>
      rw [hop] at h
      have hw : c.mem_read addr < 256 := mem_read_lt c addr
      unfold CPU.update_negative_flags CPU.mem_write at h
      simp only [except_bind_ok, pure, Except.pure, apply_ite CPU.status] at h
      generalize hgw : c.mem_read addr = w at h hw
      generalize hgs : c.status = s at h hs
      have hp := Except.ok.inj h
      have hv := congrArg Prod.fst hp
      have hsts := congrArg (fun q => CPU.status q.2) hp
      simp only [apply_ite CPU.status] at hv hsts
      rw [← hv, ← hsts]
      clear h hp hv hsts hop hgw hgs
      refine ⟨?_, ?_, ?_⟩
      · by_cases htmp : s &&& CARRY_FLAG ≠ 0
        · rw [if_pos htmp]; revert hw; revert w; decide
        · rw [if_neg htmp]; revert hw; revert w; decide
      · by_cases hv7 : (if s &&& CARRY_FLAG ≠ 0 then
            w <<< 1 % 256 ||| 1 else w <<< 1 % 256) >>> 7 = 1
        · rw [if_pos hv7]
          by_cases hw7 : w >>> 7 = 1
          · rw [if_pos hw7]; clear hv7; revert hs; revert s; decide
          · rw [if_neg hw7]; clear hv7; revert hs; revert s; decide
        · rw [if_neg hv7]
          by_cases hw7 : w >>> 7 = 1
          · rw [if_pos hw7]; clear hv7; revert hs; revert s; decide
          · rw [if_neg hw7]; clear hv7; revert hs; revert s; decide
      · by_cases hv7 : (if s &&& CARRY_FLAG ≠ 0 then
            w <<< 1 % 256 ||| 1 else w <<< 1 % 256) >>> 7 = 1
        · rw [if_pos hv7, if_pos hv7]
          by_cases hw7 : w >>> 7 = 1
          · rw [if_pos hw7]; clear hv7; revert hs; revert s; decide
          · rw [if_neg hw7]; clear hv7; revert hs; revert s; decide
        · rw [if_neg hv7, if_neg hv7]
          by_cases hw7 : w >>> 7 = 1
          · rw [if_pos hw7]; clear hv7; revert hs; revert s; decide
          · rw [if_neg hw7]; clear hv7; revert hs; revert s; decide
  · intro c mode v c' hs h
    unfold CPU.ror at h
    cases hop : c.get_operand_address mode with
    | error e => rw [hop] at h; exact absurd h (by simp [except_bind_err])
    | ok addr =>
      rw [hop] at h
      have hw : c.mem_read addr < 256 := mem_read_lt c addr
      unfold CPU.update_negative_flags CPU.mem_write at h
      simp only [except_bind_ok, pure, Except.pure, apply_ite CPU.status] at h
      generalize hgw : c.mem_read addr = w at h hw
      generalize hgs : c.status = s at h hs
      have hp := Except.ok.inj h
      have hv := congrArg Prod.fst hp
      have hsts := congrArg (fun q => CPU.status q.2) hp
      simp only [apply_ite CPU.status] at hv hsts
      rw [← hv, ← hsts]
      clear h hp hv hsts hop hgw hgs
      refine ⟨?_, ?_, ?_⟩
      · by_cases htmp : s &&& CARRY_FLAG = 1
        · rw [if_pos htmp]; revert hw; revert w; decide
        · rw [if_neg htmp]; revert hw; revert w; decide
      · by_cases hv7 : (if s &&& CARRY_FLAG = 1 then
            w >>> 1 ||| NEGATIVE_FLAG else w >>> 1 &&& 0x7F) >>> 7 = 1
        · rw [if_pos hv7]
          by_cases hw7 : w &&& 1 = 1
          · rw [if_pos hw7]; clear hv7; revert hs; revert s; decide
          · rw [if_neg hw7]; clear hv7; revert hs; revert s; decide
        · rw [if_neg hv7]
          by_cases hw7 : w &&& 1 = 1
          · rw [if_pos hw7]; clear hv7; revert hs; revert s; decide
          · rw [if_neg hw7]; clear hv7; revert hs; revert s; decide
      · by_cases hv7 : (if s &&& CARRY_FLAG = 1 then
            w >>> 1 ||| NEGATIVE_FLAG else w >>> 1 &&& 0x7F) >>> 7 = 1
        · rw [if_pos hv7, if_pos hv7]
          by_cases hw7 : w &&& 1 = 1
          · rw [if_pos hw7]; clear hv7; revert hs; revert s; decide
          · rw [if_neg hw7]; clear hv7; revert hs; revert s; decide
        · rw [if_neg hv7, if_neg hv7]
          by_cases hw7 : w &&& 1 = 1
          · rw [if_pos hw7]; clear hv7; revert hs; revert s; decide
          · rw [if_neg hw7]; clear hv7; revert hs; revert s; decide
  · intro c r hs hr
    unfold CPU.update_zero_and_negative_flags
    simp only [apply_ite CPU.status]
    by_cases hz : r = 0
    · subst hz
      norm_num
      generalize c.status = s at hs ⊢
      revert hs; revert s
      decide
    · simp only [if_neg hz]
      by_cases hn : r &&& 0x80 ≠ 0
      · simp only [if_pos hn]
        generalize c.status = s at hs ⊢
        revert hs; revert s
        decide
      · simp only [if_neg hn]
        generalize c.status = s at hs ⊢
        revert hs; revert s
        decide

/-- A machine with the Zero flag set (status 0x26), a ZeroPage operand
pointing at address 0x10, and memory byte 0x01 there. -/
def cpuRol : CPU :=
  { register_a := 0, register_x := 0, register_y := 0, status := 0x26,
    program_counter := 0x0600, stack_pointer := 0xFD,
    mem := fun a => if a = 0x0600 then 0x10 else if a = 0x10 then 0x01 else 0 }

/-- Counterexample for C7 as stated: the memory form of ROL rotates the
byte 0x01 into 0x02 — a nonzero result — yet the Zero flag remains set
afterwards, so memory ROL does not set Zero exactly when the result is
zero. -/
theorem rol_memory_zero_flag_stale :
    (CPU.rol cpuRol AddressingMode.ZeroPage).map
        (fun p => (p.1, p.2.status &&& ZERO_FLAG)) =
      Except.ok (2, ZERO_FLAG) := rfl

/-- A machine with Carry and Zero set (status 0x27) and memory byte 0x01
at the ZeroPage operand address 0x10. -/
def cpuRor : CPU :=
  { register_a := 0, register_x := 0, register_y := 0, status := 0x27,
    program_counter := 0x0600, stack_pointer := 0xFD,
    mem := fun a => if a = 0x0600 then 0x10 else if a = 0x10 then 0x01 else 0 }

/-- The machine state after the ROL of `cpuRol`. -/
def cpuRolRes : CPU :=
  ((CPU.rol cpuRol AddressingMode.ZeroPage).toOption.getD (0, cpu9)).2

/-- The machine state after the ROR of `cpuRor`. -/
def cpuRorRes : CPU :=
  ((CPU.ror cpuRor AddressingMode.ZeroPage).toOption.getD (0, cpu9)).2

/-- Witness for C7 at concrete machines: a ROL of 0x01 (result 0x02), a
ROR of 0x01 with carry in (result 0x80), and the general flag rule at
result byte 5. -/
theorem rol_ror_memory_flag_update_witness :
    ((2 : Nat) < 256 ∧ cpuRolRes.status &&& ZERO_FLAG = cpuRol.status &&& ZERO_FLAG ∧
      cpuRolRes.status &&& NEGATIVE_FLAG = (if (2 : Nat) >>> 7 = 1 then NEGATIVE_FLAG else 0))
  ∧ ((0x80 : Nat) < 256 ∧ cpuRorRes.status &&& ZERO_FLAG = cpuRor.status &&& ZERO_FLAG ∧
      cpuRorRes.status &&& NEGATIVE_FLAG = (if (0x80 : Nat) >>> 7 = 1 then NEGATIVE_FLAG else 0))
  ∧ ((cpu9.update_zero_and_negative_flags 5).status &&& ZERO_FLAG =
        (if (5 : Nat) = 0 then ZERO_FLAG else 0) ∧
      (cpu9.update_zero_and_negative_flags 5).status &&& NEGATIVE_FLAG =
        (if (5 : Nat) &&& 0x80 ≠ 0 then NEGATIVE_FLAG else 0)) :=
  ⟨rol_ror_memory_flag_update.1 cpuRol AddressingMode.ZeroPage 2 cpuRolRes
      (by decide) rfl,
   rol_ror_memory_flag_update.2.1 cpuRor AddressingMode.ZeroPage 0x80 cpuRorRes
      (by decide) rfl,
   rol_ror_memory_flag_update.2.2 cpu9 5 (by decide) (by decide)⟩

/-! ## C5: vblank entry at scanline 241 and NMI latching -/

/-- Iterated NMI polling: `poll_nmi_interrupt` applied `n` times,
keeping only the PPU state. -/
def NesPPU.pollIter (n : Nat) (p : NesPPU) : NesPPU :=
  match n with
  | 0 => p
  | n + 1 => NesPPU.pollIter n p.poll_nmi_interrupt.2

/-- Polling never re-arms the pending-NMI flag. -/
theorem pollIter_none (n : Nat) (p : NesPPU) (h : p.nmi_interrupt = none) :
    (NesPPU.pollIter n p).nmi_interrupt = none := by
  induction n generalizing p with
  | zero => exact h
  | succ n ih =>
    apply ih
    rfl

/-- C5.  When a tick carries the PPU from scanline 240 over the 341-dot
boundary (entering scanline 241), the vblank-started bit is set and
sprite-zero-hit is cleared; if the control register's NMI-enable bit is
set, a pending NMI is latched, the first `poll_nmi_interrupt` returns
it, and every further poll returns `none` until the next assertion. -/
theorem ppu_vblank_nmi_on_scanline_241 (p : NesPPU) (c : Nat)
    (hb : p.status.bits < 256) (hscan : p.scanline = 240)
    (hcy : 341 ≤ p.cycles + c) :
    (p.tick c).1.status.check_vblank_started = true
  ∧ (p.tick c).1.status.bits &&& 0x40 = 0
  ∧ (p.ctrl.generate_nmi = true →
      (p.tick c).1.nmi_interrupt = some 1
      ∧ ((p.tick c).1.poll_nmi_interrupt.1 = some 1)
      ∧ ∀ n : Nat,
          (NesPPU.pollIter n (p.tick c).1.poll_nmi_interrupt.2).poll_nmi_interrupt.1 =
            none) := by
  have htick : (p.tick c).1 =
      { p with
        cycles := p.cycles + c - 341
        scanline := 241
        status := ⟨(p.status.bits ||| 0x80) &&& 0xBF⟩
        nmi_interrupt := if p.ctrl.generate_nmi then some 1 else p.nmi_interrupt } := by
    unfold NesPPU.tick StatusRegister.set_vblank_started StatusRegister.set_sprite_zero_hit
    dsimp only
    simp only [hscan]
    rw [if_pos hcy]
    cases hg : p.ctrl.generate_nmi
    all_goals norm_num
  rw [htick]
  refine ⟨?_, ?_, ?_⟩
  · show StatusRegister.check_vblank_started ⟨(p.status.bits ||| 0x80) &&& 0xBF⟩ = true
    unfold StatusRegister.check_vblank_started
    simp only [decide_eq_true_eq]
    generalize p.status.bits = s at hb
    revert hb; revert s; decide
  · show ((p.status.bits ||| 0x80) &&& 0xBF) &&& 0x40 = 0
    generalize p.status.bits = s at hb
    revert hb; revert s; decide
  · intro hn
    refine ⟨?_, ?_, ?_⟩
    · show (if p.ctrl.generate_nmi then some 1 else p.nmi_interrupt) = some 1
      simp [hn]
    · show (if p.ctrl.generate_nmi then some 1 else p.nmi_interrupt) = some 1
      simp [hn]
    · intro n
      exact pollIter_none n _ rfl

/-- A PPU one dot before entering scanline 241, with NMI generation
enabled (control bit 7) and sprite-zero-hit currently set. -/
def ppu240 : NesPPU :=
  { ppu0 with scanline := 240, cycles := 340, ctrl := ⟨0x80⟩, status := ⟨0x40⟩ }

/-- Witness for C5: ticking `ppu240` by one dot enters scanline 241,
raises vblank, clears sprite-zero-hit, latches the NMI, and polling
consumes it exactly once. -/
theorem ppu_vblank_nmi_on_scanline_241_witness :
    (ppu240.tick 1).1.status.check_vblank_started = true
  ∧ (ppu240.tick 1).1.status.bits &&& 0x40 = 0
  ∧ (ppu240.tick 1).1.nmi_interrupt = some 1
  ∧ ((ppu240.tick 1).1.poll_nmi_interrupt.1 = some 1)
  ∧ (NesPPU.pollIter 3 (ppu240.tick 1).1.poll_nmi_interrupt.2).poll_nmi_interrupt.1 =
      none := by
  have h := ppu_vblank_nmi_on_scanline_241 ppu240 1 (by decide) rfl (by decide)
  obtain ⟨h1, h2, h3⟩ := h
  obtain ⟨h4, h5, h6⟩ := h3 (by decide)
  exact ⟨h1, h2, h4, h5, h6 3⟩

/-! ## C6: 1364 dots from scanline 0 -/

/-- Delivering a sequence of tick calls to the PPU. -/
def NesPPU.tickList (p : NesPPU) (l : List Nat) : NesPPU :=
  l.foldl (fun q c => (q.tick c).1) p

/-- A tick that stays under the 341-dot boundary only accumulates. -/
theorem tick_under (p : NesPPU) (c : Nat) (h : p.cycles + c < 341) :
    (p.tick c).1.scanline = p.scanline ∧ (p.tick c).1.cycles = p.cycles + c := by
  unfold NesPPU.tick
  dsimp only
  rw [if_neg (by omega : ¬341 ≤ p.cycles + c)]
  exact ⟨rfl, rfl⟩

/-- A tick crossing the 341-dot boundary on an early scanline advances
the scanline and keeps the remainder. -/
theorem tick_over (p : NesPPU) (c : Nat) (h : 341 ≤ p.cycles + c)
    (hs : p.scanline + 1 < 241) :
    (p.tick c).1.scanline = p.scanline + 1 ∧ (p.tick c).1.cycles = p.cycles + c - 341 := by
  unfold NesPPU.tick
  dsimp only
  rw [if_pos h, if_neg (by omega : ¬p.scanline + 1 = 241),
    if_neg (by omega : ¬262 ≤ p.scanline + 1)]
  exact ⟨rfl, rfl⟩

/-- Invariant: while at most 1364 dots have been delivered, the PPU's
scanline/dot pair counts the delivered dots exactly. -/
theorem tickList_invariant (l : List Nat) : ∀ p : NesPPU,
    (∀ x ∈ l, x < 256) → p.cycles < 341 →
    p.scanline * 341 + p.cycles + l.sum ≤ 1364 →
    (p.tickList l).scanline * 341 + (p.tickList l).cycles =
      p.scanline * 341 + p.cycles + l.sum ∧ (p.tickList l).cycles < 341 := by
  induction l with
  | nil =>
    intro p _ hcy _
    simp only [NesPPU.tickList, List.foldl_nil, List.sum_nil]
    omega
  | cons c t ih =>
    intro p hx hcy hle
    have hc : c < 256 := hx c (by simp)
    have hstep : NesPPU.tickList p (c :: t) = NesPPU.tickList (p.tick c).1 t := rfl
    have hsum : (c :: t).sum = c + t.sum := by simp
    rw [hstep]
    by_cases hover : 341 ≤ p.cycles + c
    · have hscan : p.scanline + 1 < 241 := by
        by_contra hcon
        have : 241 ≤ p.scanline + 1 := by omega
        have : 240 * 341 ≤ p.scanline * 341 := by
          have : 240 ≤ p.scanline := by omega
          exact Nat.mul_le_mul_right 341 this
        omega
      obtain ⟨h1, h2⟩ := tick_over p c hover hscan
      have := ih (p.tick c).1 (fun x hxt => hx x (by simp [hxt]))
        (by omega) (by rw [h1, h2] at *; omega)
      rw [h1, h2] at this
      omega
    · obtain ⟨h1, h2⟩ := tick_under p c (by omega)
      have := ih (p.tick c).1 (fun x hxt => hx x (by simp [hxt]))
        (by omega) (by rw [h1, h2] at *; omega)
      rw [h1, h2] at this
      omega

/-- C6 (amended).  Delivering tick calls totalling exactly 1364 dots
(each call a u8 amount) from scanline 0, dot 0 leaves the scanline
counter at 4 — not 3 — and the dot counter at 0, because 1364 = 4 × 341
spans four full scanlines. -/
theorem ppu_1364_dots_scanline_four (p : NesPPU) (l : List Nat)
    (hscan : p.scanline = 0) (hcy : p.cycles = 0)
    (hx : ∀ x ∈ l, x < 256) (hsum : l.sum = 1364) :
    (p.tickList l).scanline = 4 ∧ (p.tickList l).cycles = 0 := by
  have h := tickList_invariant l p hx (by omega) (by omega)
  rw [hscan, hcy, hsum] at h
  omega

/-- A concrete delivery of exactly 1364 dots in six u8-sized tick calls. -/
def dotsList : List Nat := [255, 255, 255, 255, 255, 89]

/-- Counterexample for C6 as stated: 1364 dots delivered from scanline
0, dot 0 leave the scanline counter at 4, not 3. -/
theorem ppu_1364_dots_not_scanline_three :
    dotsList.sum = 1364
  ∧ (ppu0.tickList dotsList).scanline = 4
  ∧ (ppu0.tickList dotsList).cycles = 0
  ∧ (ppu0.tickList dotsList).scanline ≠ 3 := by
  refine ⟨by decide, rfl, rfl, by decide⟩

/-- Witness for C6 on the concrete 1364-dot delivery `dotsList`. -/
theorem ppu_1364_dots_scanline_four_witness :
    (ppu0.tickList dotsList).scanline = 4 ∧ (ppu0.tickList dotsList).cycles = 0 :=
  ppu_1364_dots_scanline_four ppu0 dotsList rfl rfl (by decide) (by decide)

/-! ## C1: NMI service at instruction fetch -/

/-- A CPU about to fetch a NOP at 0x0600, with the NMI vector at
0xFFFA/0xFFFB pointing to 0x1234. -/
def cpuNmi : CPU :=
  { register_a := 0, register_x := 0, register_y := 0, status := 0x24,
    program_counter := 0x0600, stack_pointer := 0xFD,
    mem := fun a =>
      if a = 0x0600 then 0xEA
      else if a = 0xFFFA then 0x34
      else if a = 0xFFFB then 0x12 else 0 }

/-- A bus whose PPU has latched a pending NMI. -/
def busNmi : Bus := { bus0 with ppu := { ppu0 with nmi_interrupt := some 1 } }

/-- C1.  The bus does report a pending NMI through `poll_nmi_status`,
but the run-loop body (`CPU.step`) never consults it: even with the NMI
vector at 0xFFFA pointing to 0x1234, a step from `cpuNmi` simply
executes the fetched NOP — the program counter advances to 0x0601 (not
the vector), and the stack pointer and status byte are untouched, so no
interrupt service (pushes, Interrupt-Disable set, vector jump) ever
happens. -/
theorem cpu_run_loop_never_services_nmi :
    (Bus.poll_nmi_status busNmi).1 = some 1
  ∧ CPU.step cpuNmi =
      Except.ok (StepResult.next { cpuNmi with program_counter := 0x0601 })
  ∧ CPU.mem_read_u16 cpuNmi 0xFFFA = 0x1234
  ∧ CPU.mem_read_u16 cpuNmi 0xFFFA ≠ 0x0601
  ∧ ({ cpuNmi with program_counter := 0x0601 }).stack_pointer = cpuNmi.stack_pointer
  ∧ ({ cpuNmi with program_counter := 0x0601 }).status = cpuNmi.status :=
  ⟨rfl, rfl, by decide, by decide, rfl, rfl⟩

/-! ## C2: cycle reporting and Bus::tick -/

/-- A bus mid-frame: 5 CPU cycles elapsed, PPU at dot 10 of scanline 0. -/
def busT : Bus := { bus0 with cycles := 5, ppu := { ppu0 with cycles := 10 } }

/-- C2.  The bus side of the claim holds: `Bus.tick` adds the reported
cycles to the bus cycle counter and forwards three PPU dots per CPU
cycle (here 2 CPU cycles move the PPU from dot 10 to dot 16).  The CPU
run-loop body (`CPU.step`) operates on the CPU state alone and never
invokes `Bus.tick`, so no instruction ever reports its cycle count. -/
theorem bus_tick_advances_clock_and_ppu_dots :
    (∀ (b : Bus) (c : Nat), (Bus.tick b c).cycles = b.cycles + c % 256)
  ∧ (Bus.tick busT 2).cycles = 7
  ∧ (Bus.tick busT 2).ppu.cycles = 16
  ∧ (Bus.tick busT 2).ppu.scanline = 0 := by
  refine ⟨?_, rfl, rfl, rfl⟩
  intro b c
  unfold Bus.tick
  dsimp only
  split
  · rfl
  · rfl

/-! ## C8: OAM DMA via bus address 0x4014 -/

/-- Positions the DMA loop never writes keep their OAM byte. -/
theorem write_dma_preserve (t : List Nat) : ∀ (o : OamRegisters) (q : Nat),
    (∀ k, k < t.length → (o.oam_addr + k) % 256 ≠ q) →
    (OamRegisters.write_dma o t).oam_data q = o.oam_data q := by
  induction t with
  | nil => intro o q _; rfl
  | cons y t ih =>
    intro o q hq
    have h0 : o.oam_addr % 256 ≠ q := by
      have := hq 0 (by simp)
      omega
    rw [show OamRegisters.write_dma o (y :: t) =
          OamRegisters.write_dma (o.write_data y) t from rfl]
    rw [ih (o.write_data y) q ?side]
    case side =>
      intro k hk
      show ((o.oam_addr + 1) % 256 + k) % 256 ≠ q
      have := hq (k + 1) (by simp; omega)
      omega
    show (if q = o.oam_addr % 256 then y % 256 else o.oam_data q) = o.oam_data q
    rw [if_neg (fun hc => h0 hc.symm)]

/-- The DMA loop copies byte `i` of the buffer to OAM position
`oam_addr + i` modulo 256. -/
theorem write_dma_copies (l : List Nat) : ∀ (o : OamRegisters) (i : Nat),
    l.length ≤ 256 → i < l.length →
    (OamRegisters.write_dma o l).oam_data ((o.oam_addr + i) % 256) = l.getD i 0 % 256 := by
  induction l with
  | nil => intro o i _ hi; exact absurd hi (by simp)
  | cons y t ih =>
    intro o i hlen hi
    have hlt : t.length ≤ 255 := by
      have := hlen; simp at this; omega
    rw [show OamRegisters.write_dma o (y :: t) =
          OamRegisters.write_dma (o.write_data y) t from rfl]
    cases i with
    | zero =>
      rw [write_dma_preserve t (o.write_data y) ((o.oam_addr + 0) % 256) ?side]
      case side =>
        intro k hk
        show ((o.oam_addr + 1) % 256 + k) % 256 ≠ (o.oam_addr + 0) % 256
        omega
      show (if (o.oam_addr + 0) % 256 = o.oam_addr % 256 then y % 256
            else o.oam_data ((o.oam_addr + 0) % 256)) = (y :: t).getD 0 0 % 256
      rw [if_pos (by omega)]
      simp
    | succ i =>
      have hidx : ((o.write_data y).oam_addr + i) % 256 = (o.oam_addr + (i + 1)) % 256 := by
        show ((o.oam_addr + 1) % 256 + i) % 256 = (o.oam_addr + (i + 1)) % 256
        omega
      rw [← hidx, ih (o.write_data y) i (by omega) (by simp at hi; omega)]
      simp

/-- The DMA loop leaves the OAM cursor advanced by the buffer length,
modulo 256. -/
theorem write_dma_addr (l : List Nat) : ∀ o : OamRegisters, o.oam_addr < 256 →
    (OamRegisters.write_dma o l).oam_addr = (o.oam_addr + l.length) % 256 := by
  induction l with
  | nil =>
    intro o h
    show o.oam_addr = (o.oam_addr + ([] : List Nat).length) % 256
    simp; omega
  | cons y t ih =>
    intro o h
    rw [show OamRegisters.write_dma o (y :: t) =
          OamRegisters.write_dma (o.write_data y) t from rfl]
    rw [ih (o.write_data y) (by show (o.oam_addr + 1) % 256 < 256; omega)]
    show ((o.oam_addr + 1) % 256 + t.length) % 256 = (o.oam_addr + (y :: t).length) % 256
    simp [List.length_cons]
    omega

/-- `Bus::mem_read` never touches the bus cycle counter. -/
theorem mem_read_cycles (addr : Nat) : ∀ (b : Bus) (v : Nat) (b' : Bus),
    Bus.mem_read b addr = Except.ok (v, b') → b'.cycles = b.cycles := by
  induction addr using Nat.strong_induction_on with
  | _ addr ih =>
  intro b v b' h
  rw [Bus.mem_read] at h
  split_ifs at h with h1 h2 h3 h4 h5 h6 h7 h8 h9 h10
  · dsimp only at h
    injection h with h'; injection h' with hv hb; subst hb; rfl
  · injection h with h'; injection h' with hv hb; subst hb; rfl
  · rcases hx : b.ppu.read_status with ⟨rv, rp⟩
    rw [hx] at h
    dsimp only at h
    injection h with h'; injection h' with hv hb; subst hb; rfl
  · injection h with h'; injection h' with hv hb; subst hb; rfl
  · cases hx : b.ppu.read_data with
    | error e =>
      rw [hx, except_bind_err] at h
      exact absurd h (by simp)
    | ok pr =>
      obtain ⟨rv, rp⟩ := pr
      rw [hx, except_bind_ok] at h
      dsimp only at h
      injection h with h'; injection h' with hv hb; subst hb; rfl
  · dsimp only at h
    have hle : addr &&& 0x2007 ≤ 0x2007 := @Nat.and_le_right addr 0x2007
    exact ih (addr &&& 0x2007) (by omega) b v b' h
  · injection h with h'; injection h' with hv hb; subst hb; rfl
  · dsimp only at h
    injection h with h'; injection h' with hv hb; subst hb; rfl
  · injection h with h'; injection h' with hv hb; subst hb; rfl
  · cases hx : b.read_prg_rom addr with
    | error e =>
      rw [hx, except_bind_err] at h
      exact absurd h (by simp)
    | ok w =>
      rw [hx, except_bind_ok] at h
      injection h with h'; injection h' with hv hb; subst hb; rfl
  · injection h with h'; injection h' with hv hb; subst hb; rfl

/-- The 256-read DMA fill loop never touches the bus cycle counter. -/
theorem dmaFill_cycles : ∀ (fuel : Nat) (b : Bus) (hi i : Nat) (buf : List Nat) (b' : Bus),
    Bus.dmaFill b hi i fuel = Except.ok (buf, b') → b'.cycles = b.cycles := by
  intro fuel
  induction fuel with
  | zero =>
    intro b hi i buf b' h
    injection h with h'; injection h' with hbuf hb; subst hb; rfl
  | succ n ih =>
    intro b hi i buf b' h
    rw [Bus.dmaFill] at h
    cases hx : Bus.mem_read b (hi + i) with
    | error e =>
      rw [hx, except_bind_err] at h
      exact absurd h (by simp)
    | ok pr =>
      obtain ⟨v1, b1⟩ := pr
      rw [hx, except_bind_ok] at h
      dsimp only at h
      cases hy : Bus.dmaFill b1 hi (i + 1) n with
      | error e =>
        rw [hy, except_bind_err] at h
        exact absurd h (by simp)
      | ok pr2 =>
        obtain ⟨rest, b2⟩ := pr2
        rw [hy, except_bind_ok] at h
        dsimp only at h
        injection h with h'; injection h' with hbuf hb; subst hb
        calc b2.cycles = b1.cycles := ih b1 hi (i + 1) rest b2 hy
          _ = b.cycles := mem_read_cycles (hi + i) b v1 b1 hx

/-- The DMA fill loop returns exactly as many bytes as its fuel. -/
theorem dmaFill_length : ∀ (fuel : Nat) (b : Bus) (hi i : Nat) (buf : List Nat) (b' : Bus),
    Bus.dmaFill b hi i fuel = Except.ok (buf, b') → buf.length = fuel := by
  intro fuel
  induction fuel with
  | zero =>
    intro b hi i buf b' h
    injection h with h'; injection h' with hbuf hb
    rw [← hbuf]; rfl
  | succ n ih =>
    intro b hi i buf b' h
    rw [Bus.dmaFill] at h
    cases hx : Bus.mem_read b (hi + i) with
    | error e =>
      rw [hx, except_bind_err] at h
      exact absurd h (by simp)
    | ok pr =>
      obtain ⟨v1, b1⟩ := pr
      rw [hx, except_bind_ok] at h
      dsimp only at h
      cases hy : Bus.dmaFill b1 hi (i + 1) n with
      | error e =>
        rw [hy, except_bind_err] at h
        exact absurd h (by simp)
      | ok pr2 =>
        obtain ⟨rest, b2⟩ := pr2
        rw [hy, except_bind_ok] at h
        dsimp only at h
        injection h with h'; injection h' with hbuf hb
        rw [← hbuf]
        simp [ih b1 hi (i + 1) rest b2 hy]

/-- The bytes CPU RAM yields to a DMA fill that stays inside the
mirrored-RAM window: `fuel` consecutive reads starting at `base`. -/
def ramWindow (b : Bus) (base : Nat) : Nat → List Nat
  | 0 => []
  | n + 1 => b.cpu_vram (base &&& 0x07FF) % 256 :: ramWindow b (base + 1) n

/-- A RAM read leaves the bus untouched and yields the mirrored byte. -/
theorem mem_read_ram (b : Bus) (a : Nat) (h : a ≤ 0x1FFF) :
    Bus.mem_read b a = Except.ok (b.cpu_vram (a &&& 0x07FF) % 256, b) := by
  rw [Bus.mem_read, if_pos (show a ≤ RAM_MIRRORS_END from h)]

/-- A DMA fill over RAM addresses succeeds, returns the RAM window, and
returns the bus unchanged. -/
theorem dmaFill_ram : ∀ (fuel : Nat) (b : Bus) (hi i : Nat), hi + i + fuel ≤ 0x2000 →
    Bus.dmaFill b hi i fuel = Except.ok (ramWindow b (hi + i) fuel, b) := by
  intro fuel
  induction fuel with
  | zero => intro b hi i _; rfl
  | succ n ih =>
    intro b hi i h
    rw [Bus.dmaFill, mem_read_ram b (hi + i) (by omega), except_bind_ok]
    dsimp only
    rw [ih b hi (i + 1) (by omega), except_bind_ok]
    rfl

/-- C8 (amended).  Writing `p` to 0x4014 reads the 256 bytes of page
`p` and copies them into OAM starting at the current OAM cursor, the
OAM index wrapping modulo 256 and the cursor advancing by the buffer
length — but the transfer charges no cycle cost at all: the bus cycle
counter is unchanged (`Bus::tick` is never invoked by the DMA path). -/
theorem oam_dma_copies_with_wrap_but_charges_no_cycles :
    (∀ (o : OamRegisters) (l : List Nat) (i : Nat), l.length ≤ 256 → i < l.length →
        (OamRegisters.write_dma o l).oam_data ((o.oam_addr + i) % 256) = l.getD i 0 % 256)
  ∧ (∀ (o : OamRegisters) (l : List Nat), o.oam_addr < 256 →
        (OamRegisters.write_dma o l).oam_addr = (o.oam_addr + l.length) % 256)
  ∧ (∀ (b : Bus) (p : Nat) (b' : Bus), Bus.mem_write b 0x4014 p = Except.ok b' →
        b'.cycles = b.cycles
        ∧ ∃ buf b₁, Bus.dmaFill b ((p % 256) <<< 8) 0 256 = Except.ok (buf, b₁)
            ∧ buf.length = 256
            ∧ b' = { b₁ with ppu := b₁.ppu.write_oam_dma buf }) := by
  refine ⟨fun o l i hlen hi => write_dma_copies l o i hlen hi,
    fun o l h => write_dma_addr l o h, ?_⟩
  intro b p b' h
  rw [Bus.mem_write] at h
  norm_num [RAM_MIRRORS_END, PPU_REGISTERS_MIRRORS_END] at h
  cases hx : Bus.dmaFill b ((p % 256) <<< 8) 0 256 with
  | error e =>
    rw [hx, except_bind_err] at h
    exact absurd h (by simp)
  | ok pr =>
    obtain ⟨buf, b₁⟩ := pr
    rw [hx, except_bind_ok] at h
    dsimp only at h
    injection h with h'
    subst h'
    exact ⟨dmaFill_cycles 256 b ((p % 256) <<< 8) 0 buf b₁ hx,
      buf, b₁, rfl, dmaFill_length 256 b ((p % 256) <<< 8) 0 buf b₁ hx, rfl⟩

/-- A bus five CPU cycles into execution, all RAM zero. -/
def bus5 : Bus := { bus0 with cycles := 5 }

/-- Evaluating the DMA write of page 2 on `bus5`. -/
theorem bus5_dma_write_eq :
    Bus.mem_write bus5 0x4014 2 =
      Except.ok { bus5 with ppu := bus5.ppu.write_oam_dma (ramWindow bus5 0x0200 256) } := by
  rw [Bus.mem_write]
  norm_num [RAM_MIRRORS_END, PPU_REGISTERS_MIRRORS_END]
  rw [show ((2 % 256) <<< 8 : Nat) = 0x0200 from by decide]
  rw [dmaFill_ram 256 bus5 0x0200 0 (by norm_num), except_bind_ok]

/-- Counterexample for C8 as stated: the DMA write completes without
charging any cycle cost — the cycle counter still reads 5 afterwards. -/
theorem oam_dma_write_charges_no_cycles :
    (Bus.mem_write bus5 0x4014 2).map Bus.cycles = Except.ok 5 ∧ bus5.cycles = 5 := by
  rw [bus5_dma_write_eq]
  exact ⟨rfl, rfl⟩

/-- OAM registers with the cursor preset to 0x10. -/
def oamW : OamRegisters := ⟨0x10, fun _ => 0⟩

/-- A short DMA buffer. -/
def bufW : List Nat := [0x77, 0x88, 0x99]

/-- Witness for C8 at concrete inputs: byte 2 of the buffer lands at
cursor+2, the cursor advances by the buffer length, and the concrete
DMA write on `bus5` leaves the cycle counter untouched. -/
theorem oam_dma_copies_with_wrap_but_charges_no_cycles_witness :
    (OamRegisters.write_dma oamW bufW).oam_data ((oamW.oam_addr + 2) % 256) = bufW.getD 2 0 % 256
  ∧ (OamRegisters.write_dma oamW bufW).oam_addr = (oamW.oam_addr + bufW.length) % 256
  ∧ ({ bus5 with ppu := bus5.ppu.write_oam_dma (ramWindow bus5 0x0200 256) } : Bus).cycles =
      bus5.cycles :=
  ⟨oam_dma_copies_with_wrap_but_charges_no_cycles.1 oamW bufW 2 (by decide) (by decide),
   oam_dma_copies_with_wrap_but_charges_no_cycles.2.1 oamW bufW (by decide),
   (oam_dma_copies_with_wrap_but_charges_no_cycles.2.2 bus5 2
      { bus5 with ppu := bus5.ppu.write_oam_dma (ramWindow bus5 0x0200 256) }
      bus5_dma_write_eq).1⟩
